import Mathlib

/-!
Verification of the saltyrtc-client-js core: the chunking sublayer
(`Chunkifier` / `Unchunkifier`), the combined sequence number, the packet
builder and the peer-handshake message handler of the signaling engine.
All definitions are shallow embeddings of the TypeScript source; machine
numbers are modelled as `Nat` with the source's explicit bounds, thrown
exceptions as `Except`, and `undefined` returns as `Option`.
-/

namespace SaltyRTC

/-! ### Chunkifier (src chunkifier module) -/

/-- Embedding of the `Chunkifier` class.  The constructor validates that the
array is non-empty and the chunk size is at least 2; those checks are carried
as invariants of the structure, and `Chunkifier.make` embeds the constructor
itself. -/
structure Chunkifier where
  array : List Nat
  chunkSize : Nat
  harr : 1 ≤ array.length
  hsize : 2 ≤ chunkSize

/-- Constructor checks of `Chunkifier`: `RangeError` on an empty array or a
chunk size below 2. -/
def Chunkifier.make (array : List Nat) (chunkSize : Nat) :
    Except String Chunkifier :=
  if h1 : array.length < 1 then Except.error "Array may not be empty"
  else if h2 : chunkSize < 2 then Except.error "Chunk size must be larger than 1"
  else Except.ok ⟨array, chunkSize, Nat.le_of_not_lt h1, Nat.le_of_not_lt h2⟩

/-- Embedding of `Chunkifier.offset`: `chunkIndex * (chunkSize - 1)`. -/
def Chunkifier.offset (c : Chunkifier) (chunkIndex : Nat) : Nat :=
  chunkIndex * (c.chunkSize - 1)

/-- Embedding of `Chunkifier.hasNext`: `offset(index) < array.length`. -/
def Chunkifier.hasNext (c : Chunkifier) (index : Nat) : Bool :=
  c.offset index < c.array.length

/-- One loop iteration of `getChunks`: the chunk at `index` is the
more-chunks flag byte followed by `array.slice(offset, end)` where
`end = min(offset(index+1), array.length)`. -/
def Chunkifier.chunkAt (c : Chunkifier) (index : Nat) : List Nat :=
  let off := c.offset index
  let flag : Nat := if c.hasNext (index + 1) then 1 else 0
  let stop := min (c.offset (index + 1)) c.array.length
  flag :: ((c.array.drop off).take (stop - off))

/-- The `while (this.hasNext(index))` loop of `getChunks`, generating the
chunks from `index` upwards. -/
def Chunkifier.getChunksFrom (c : Chunkifier) (index : Nat) : List (List Nat) :=
  if h : c.hasNext index then
    c.chunkAt index :: c.getChunksFrom (index + 1)
  else []
termination_by c.array.length - c.offset index
decreasing_by
  simp only [Chunkifier.hasNext, Chunkifier.offset, decide_eq_true_eq] at h
  have h1 : index * (c.chunkSize - 1) < (index + 1) * (c.chunkSize - 1) := by
    have : 1 ≤ c.chunkSize - 1 := Nat.le_sub_of_add_le c.hsize
    calc index * (c.chunkSize - 1) < index * (c.chunkSize - 1) + 1 := Nat.lt_succ_self _
    _ ≤ index * (c.chunkSize - 1) + (c.chunkSize - 1) := by omega
    _ = (index + 1) * (c.chunkSize - 1) := by ring
  exact Nat.sub_lt_sub_left h h1

/-- Embedding of `Chunkifier.getChunks` (the cached generation is pure, so the cache is
dropped). -/
def Chunkifier.getChunks (c : Chunkifier) : List (List Nat) :=
  c.getChunksFrom 0

/-! ### Unchunkifier -/

/-- Structured rendering of the `Error` values thrown by `Unchunkifier`. -/
inductive UErr where
  | alreadyComplete
  | invalidChunk (flag : Nat)
  | notComplete
deriving DecidableEq, Repr

/-- Mutable state of an `Unchunkifier` instance. -/
structure UState where
  chunks : List (List Nat)
  length : Nat
  done : Bool
  merged : Option (List Nat)
deriving DecidableEq, Repr

/-- Freshly constructed `Unchunkifier`. -/
def Unchunkifier.init : UState :=
  { chunks := [], length := 0, done := false, merged := none }

/-- Embedding of `Unchunkifier.add`.  The first component of the result is
the state after the call (JS mutations persist even when the call throws);
the second is the returned value, where `Option Bool` models the TypeScript
`boolean` result with `none` standing for the bare `return;` (undefined). -/
def Unchunkifier.add (s : UState) (array : List Nat) :
    UState × Except UErr (Option Bool) :=
  if s.done then (s, Except.error UErr.alreadyComplete)
  else match array with
  | [] => (s, Except.ok none)
  | flag :: _ =>
    let s1 : UState := { s with chunks := s.chunks ++ [array],
                                length := s.length + (array.length - 1) }
    if flag = 0 then ({ s1 with done := true }, Except.ok (some true))
    else if flag = 1 then (s1, Except.ok (some false))
    else (s1, Except.error (UErr.invalidChunk flag))

/-- Embedding of `array.set(chunk.slice(1), offset)`: write `src` into `dst` starting at
`off`. -/
def setAt (dst : List Nat) (off : Nat) (src : List Nat) : List Nat :=
  dst.take off ++ src ++ dst.drop (off + src.length)

/-- The merge loop of `Unchunkifier.merge`: write the tail of every chunk
into the destination buffer at the running offset. -/
def writeChunks (dst : List Nat) (off : Nat) : List (List Nat) → List Nat
  | [] => dst
  | c :: cs => writeChunks (setAt dst off c.tail) (off + (c.length - 1)) cs

/-- Embedding of `Unchunkifier.merge` (the memoised `merged` cache does not
change the computed value, so the returned bytes are computed directly). -/
def Unchunkifier.merge (s : UState) : Except UErr (List Nat) :=
  if !s.done then Except.error UErr.notComplete
  else Except.ok (writeChunks (List.replicate s.length 0) 0 s.chunks)

/-- Feed a list of chunks into an `Unchunkifier` one `add` call at a time,
propagating any thrown error. -/
def addAll (s : UState) : List (List Nat) → Except UErr UState
  | [] => Except.ok s
  | c :: cs =>
    match Unchunkifier.add s c with
    | (s1, Except.ok _) => addAll s1 cs
    | (_, Except.error e) => Except.error e

/-! ### CombinedSequence (src/saltyrtc/signaling.ts, lines 56-93) -/

/-- Constant `CombinedSequence.SEQUENCE_NUMBER_MAX = 0x100000000`. -/
def SEQUENCE_NUMBER_MAX : Nat := 0x100000000

/-- Constant `CombinedSequence.OVERFLOW_MAX = 0x100000` (the source comment reads
`1<<16`, but the literal in the code is `0x100000`, which is `1<<20`). -/
def OVERFLOW_MAX : Nat := 0x100000

/-- State of a `CombinedSequence` instance. -/
structure CombinedSequence where
  sequenceNumber : Nat
  overflow : Nat
deriving DecidableEq, Repr

/-- Embedding of `new CombinedSequence()`: `sequenceNumber = randomUint32()` (the random
draw is a parameter), `overflow = 0`. -/
def CombinedSequence.init (seed : Nat) : CombinedSequence :=
  { sequenceNumber := seed % SEQUENCE_NUMBER_MAX, overflow := 0 }

/-- The record `{sequenceNumber, overflow}` returned by `next()`. -/
structure CSNPair where
  sequenceNumber : Nat
  overflow : Nat
deriving DecidableEq, Repr

/-- Errors raised by the signaling engine, naming the thrown string or,
for `typeError`, a JS `TypeError` caused by dereferencing `null`/`undefined`. -/
inductive Err where
  | overflowOverflow
  | badReceiver
  | badNonceDestination
  | badNonceSource
  | badMessage
  | badMessageType
  | decryptionFailed
  | badCookie
  | typeError
  | randomExhausted
deriving DecidableEq, Repr

/-- Embedding of `CombinedSequence.next()`: wrap the sequence number when
`sequenceNumber + 1 >= SEQUENCE_NUMBER_MAX`, incrementing `overflow`, and
throw `overflow-overflow` when `overflow >= OVERFLOW_MAX`; the returned pair
is the post-increment state. -/
def CombinedSequence.next (cs : CombinedSequence) :
    Except Err (CombinedSequence × CSNPair) :=
  if cs.sequenceNumber + 1 ≥ SEQUENCE_NUMBER_MAX then
    let cs1 : CombinedSequence := { sequenceNumber := 0, overflow := cs.overflow + 1 }
    if cs1.overflow ≥ OVERFLOW_MAX then Except.error Err.overflowOverflow
    else Except.ok (cs1, { sequenceNumber := cs1.sequenceNumber, overflow := cs1.overflow })
  else
    let cs1 : CombinedSequence := { cs with sequenceNumber := cs.sequenceNumber + 1 }
    Except.ok (cs1, { sequenceNumber := cs1.sequenceNumber, overflow := cs1.overflow })

/-! ### Cookies, nonces, keys and messages.

The `Cookie`, `Nonce`, `KeyStore`, `AuthToken` and `Box` classes are imported
by `signaling.ts` from modules that are not part of the given sources, so
they are modelled from the spec. -/

/-- Modelled from the spec: a `Cookie` is 16 random bytes compared
byte-wise (`cookie.ts` is not among the sources).  Only construction and
equality are used by the embedded code. -/
structure Cookie where
  bytes : List Nat
deriving DecidableEq, Repr

/-- Modelled from the spec: `CookiePair` stores our cookie and the peer's
cookie. -/
structure CookiePair where
  ours : Cookie
  theirs : Cookie
deriving DecidableEq, Repr

/-- Modelled from the spec: the decoded fields of a 24-byte signaling-channel
nonce (`nonce.ts` is not among the sources): cookie, source and destination
addresses, and the 48-bit combined sequence number split into overflow and
sequence. -/
structure NonceM where
  cookie : Cookie
  source : Nat
  destination : Nat
  overflow : Nat
  sequenceNumber : Nat
deriving DecidableEq, Repr

/-- Message type discriminator (`undef` models a msgpack map without a
usable `type` field). -/
inductive MsgType where
  | serverHello
  | clientHello
  | clientAuth
  | serverAuth
  | newResponder
  | newInitiator
  | dropResponder
  | token
  | key
  | auth
  | undef
deriving DecidableEq, Repr

/-- Decoded signaling message; `key` carries the 32-byte public key of
`token`/`key`/`server-hello` messages (keys are abstracted to identifiers),
`yourCookie` the `your_cookie` field, `id` the responder id of
`new-responder`/`drop-responder`. -/
structure Message where
  type : MsgType
  key : Nat := 0
  yourCookie : Cookie := { bytes := [] }
  id : Nat := 0
deriving DecidableEq, Repr

/-- Modelled from the spec: the key under which a box is sealed — either the
shared auth token (secret-key box) or a public-key box between two permanent
or session key pairs.  A public-key box is identified by the unordered pair
of public keys, since NaCl derives the same shared secret on both sides. -/
inductive EncKey where
  | authTok (k : Nat)
  | box (a b : Nat)
deriving DecidableEq, Repr

/-- Normalised public-key box key for the pair of public keys `a` and `b`. -/
def mkBox (a b : Nat) : EncKey :=
  EncKey.box (min a b) (max a b)

/-- Modelled from the spec: an encrypted envelope — a ciphertext which
decrypts to `message` exactly under `encKey` (`keystore.ts` is not among the
sources). -/
structure BoxedMsg where
  encKey : EncKey
  message : Message
deriving DecidableEq, Repr

/-- Modelled from the spec: `KeyStore.decrypt` / `AuthToken.decrypt` —
returns the plaintext when the box was sealed under the expected key and
fails with `decryption-failed` otherwise. -/
def decryptBox (expected : EncKey) (b : BoxedMsg) : Except Err Message :=
  if b.encKey = expected then Except.ok b.message else Except.error Err.decryptionFailed

/-- An outbound packet as assembled by `buildPacket`: the nonce, the key the
payload is encrypted under (`none` for the unencrypted `client-hello` path),
and the encoded message. -/
structure Packet where
  nonce : NonceM
  encKey : Option EncKey
  message : Message
deriving DecidableEq, Repr

/-- An inbound WebSocket frame during the peer handshake: the peeked
(unauthenticated) nonce and the boxed payload. -/
structure Inbound where
  nonce : NonceM
  body : BoxedMsg
deriving DecidableEq, Repr

/-! ### Signaling state (src/saltyrtc/signaling.ts, lines 95-171) -/

/-- The `Responder` handshake state field. -/
inductive RespState where
  | new
  | tokenReceived
  | keyReceived
deriving DecidableEq, Repr

/-- Embedding of the `Responder` record: id, learned permanent and session
public keys, our per-responder session keystore (its public key), handshake
state and the per-responder outbound combined sequence. -/
structure Responder where
  id : Nat
  permanentKey : Option Nat
  sessionKey : Option Nat
  keyStore : Nat
  state : RespState
  combinedSequence : CombinedSequence
deriving DecidableEq, Repr

/-- Embedding of `new Responder(id)`: fresh session keystore and fresh combined sequence
(their random draws are parameters). -/
def Responder.mkNew (id : Nat) (keyPub : Nat) (seed : Nat) : Responder :=
  { id := id, permanentKey := none, sessionKey := none, keyStore := keyPub,
    state := RespState.new, combinedSequence := CombinedSequence.init seed }

/-- The `State` union of the signaling engine (`'open'` is rendered
`opened`). -/
inductive ConnState where
  | new
  | wsConnecting
  | serverHandshake
  | peerHandshake
  | opened
  | closing
  | closed
deriving DecidableEq, Repr

/-- Signaling role. -/
inductive Role where
  | initiator
  | responder
deriving DecidableEq, Repr

/-- Responder-side handshake sub-state (`initiatorHandshakeState`). -/
inductive IHState where
  | new
  | tokenSent
  | keySent
  | authReceived
deriving DecidableEq, Repr

/-- Association-list rendering of the `Map<number, Responder>`: lookup by
id. -/
def mapLookup : List (Nat × Responder) → Nat → Option Responder
  | [], _ => none
  | (k, v) :: rest, id => if k = id then some v else mapLookup rest id

/-- Embedding of `Map.delete`: remove the entry with the given key. -/
def mapErase : List (Nat × Responder) → Nat → List (Nat × Responder)
  | [], _ => []
  | (k, v) :: rest, id => if k = id then rest else (k, v) :: mapErase rest id

/-- Embedding of `Map.set` on an existing key: replace the stored responder in place. -/
def mapSet : List (Nat × Responder) → Nat → Responder → List (Nat × Responder)
  | [], id, v => [(id, v)]
  | (k, w) :: rest, id, v =>
    if k = id then (k, v) :: rest else (k, w) :: mapSet rest id v

/-- Embedding of `Map.has`. -/
def mapHasKey (rs : List (Nat × Responder)) (id : Nat) : Bool :=
  (mapLookup rs id).isSome

/-- Embedding of the fields of the `Signaling` class that the embedded
methods read or write.  `Option` models nullable fields (`none` = `null`),
keys are abstracted to their public identifiers, `ws : Bool` records whether
a WebSocket instance is attached, `handlerRegistered` whether
`onPeerHandshakeMessage` is still registered as message listener, and `sent`
logs the packets passed to `ws.send`. -/
structure SigState where
  state : ConnState
  role : Role
  address : Nat
  permanentKey : Nat
  sessionKey : Option Nat
  authToken : Nat
  serverKey : Option Nat
  cookiePair : Option CookiePair
  serverCombinedSequence : CombinedSequence
  responders : Option (List (Nat × Responder))
  responder : Option Responder
  initiatorPermanentKey : Option Nat
  initiatorSessionKey : Option Nat
  initiatorConnected : Option Bool
  initiatorHandshakeState : Option IHState
  initiatorCombinedSequence : CombinedSequence
  ws : Bool
  handlerRegistered : Bool
  sent : List Packet
deriving DecidableEq, Repr

/-- Fresh random values drawn during one handler invocation: the sequence
seed of the `CombinedSequence` created by `resetConnection`, the public key
of a freshly created session `KeyStore`, and the keystore/sequence seeds of a
freshly created `Responder`. -/
structure Fresh where
  resetSeq : Nat
  sessionPub : Nat
  respKeyPub : Nat
  respSeq : Nat
deriving DecidableEq, Repr

/-! ### Signaling methods -/

/-- Embedding of `Signaling.validateNonce` source check. -/
def validateNonceSrc (n : NonceM) (src : Option Nat) : Except Err Unit :=
  match src with
  | some sr => if n.source ≠ sr then Except.error Err.badNonceSource else Except.ok ()
  | none => Except.ok ()

/-- Embedding of `Signaling.validateNonce(nonce, destination?, source?)`:
check the destination when given, then the source when given. -/
def validateNonce (n : NonceM) (dest src : Option Nat) : Except Err Unit :=
  match dest with
  | some d =>
    if n.destination ≠ d then Except.error Err.badNonceDestination
    else validateNonceSrc n src
  | none => validateNonceSrc n src

/-- Embedding of `Signaling.decodeMessage(data, type?)`: fail with
`bad-message` when the decoded map has no type, with `bad-message-type` when
an expected type is given and differs. -/
def decodeMessage (m : Message) (expected : Option MsgType) : Except Err Message :=
  if m.type = MsgType.undef then Except.error Err.badMessage
  else match expected with
  | some t => if m.type ≠ t then Except.error Err.badMessageType else Except.ok m
  | none => Except.ok m

/-- Key selection of `buildPacket` when `encrypt` is true
(src/saltyrtc/signaling.ts, lines 509-530). -/
def selectEncKey (s : SigState) (message : Message) (receiver : Nat) :
    Except Err EncKey :=
  if receiver = 0 then
    match s.serverKey with
    | none => Except.error Err.typeError
    | some sk => Except.ok (mkBox s.permanentKey sk)
  else if receiver = 1 then
    if message.type = MsgType.token then Except.ok (EncKey.authTok s.authToken)
    else if message.type = MsgType.key then
      match s.initiatorPermanentKey with
      | none => Except.error Err.typeError
      | some ipk => Except.ok (mkBox s.permanentKey ipk)
    else
      match s.sessionKey, s.initiatorSessionKey with
      | some sk0, some isk => Except.ok (mkBox sk0 isk)
      | _, _ => Except.error Err.typeError
  else if 2 ≤ receiver ∧ receiver ≤ 0xff then
    match s.responders with
    | none => Except.error Err.typeError
    | some rs =>
      match mapLookup rs receiver with
      | none => Except.error Err.typeError
      | some r =>
        if message.type = MsgType.key then
          match r.permanentKey with
          | none => Except.error Err.typeError
          | some rpk => Except.ok (mkBox s.permanentKey rpk)
        else
          match r.sessionKey with
          | none => Except.error Err.typeError
          | some rsk => Except.ok (mkBox r.keyStore rsk)
  else Except.error Err.badReceiver

/-- Embedding of `Signaling.buildPacket(message, receiver, encrypt=true)`
(src/saltyrtc/signaling.ts, lines 488-535).  For the server and initiator
receivers the corresponding combined sequence is advanced with `next()`; for
a responder receiver the source assigns the `CombinedSequence` object itself
to `csn`, so the nonce reads the current `overflow`/`sequenceNumber` fields
and nothing is advanced. -/
def buildPacket (s : SigState) (message : Message) (receiver : Nat)
    (encrypt : Bool) : SigState × Except Err Packet :=
  let csnStep : SigState × Except Err CSNPair :=
    if receiver = 0 then
      match s.serverCombinedSequence.next with
      | Except.error e => (s, Except.error e)
      | Except.ok (cs1, p) => ({ s with serverCombinedSequence := cs1 }, Except.ok p)
    else if receiver = 1 then
      match s.initiatorCombinedSequence.next with
      | Except.error e => (s, Except.error e)
      | Except.ok (cs1, p) => ({ s with initiatorCombinedSequence := cs1 }, Except.ok p)
    else if 2 ≤ receiver ∧ receiver ≤ 0xff then
      match s.responders with
      | none => (s, Except.error Err.typeError)
      | some rs =>
        match mapLookup rs receiver with
        | none => (s, Except.error Err.typeError)
        | some r =>
          (s, Except.ok { sequenceNumber := r.combinedSequence.sequenceNumber,
                          overflow := r.combinedSequence.overflow })
    else (s, Except.error Err.badReceiver)
  match csnStep with
  | (s1, Except.error e) => (s1, Except.error e)
  | (s1, Except.ok csn) =>
    match s1.cookiePair with
    | none => (s1, Except.error Err.typeError)
    | some cp =>
      let nonce : NonceM := { cookie := cp.ours, source := s1.address,
                              destination := receiver, overflow := csn.overflow,
                              sequenceNumber := csn.sequenceNumber }
      if encrypt = false then
        (s1, Except.ok { nonce := nonce, encKey := none, message := message })
      else
        match selectEncKey s1 message receiver with
        | Except.error e => (s1, Except.error e)
        | Except.ok k =>
          (s1, Except.ok { nonce := nonce, encKey := some k, message := message })

/-- Embedding of `Signaling.resetConnection` (src/saltyrtc/signaling.ts,
lines 546-557): state to `'new'`, fresh server combined sequence, close the
WebSocket when one is attached and drop the reference.  The boolean result
records whether `ws.close()` was called. -/
def resetConnection (s : SigState) (freshSeq : Nat) : SigState × Bool :=
  ({ s with state := ConnState.new,
            serverCombinedSequence := CombinedSequence.init freshSeq,
            ws := false },
   s.ws)

/-- Errors escaping `onPeerHandshakeMessage`: `aborted` for the
`throw new Error('Aborting due to a protocol error')` raised by the local
`abort` helper, `raw e` for every exception that propagates without the
abort path. -/
inductive HandlerErr where
  | aborted
  | raw (e : Err)
deriving DecidableEq, Repr

/-- The local `abort` closure of `onPeerHandshakeMessage`: deregister the
message handler, reset the connection, and throw. -/
def abortS (s : SigState) (freshSeq : Nat) : SigState × Except HandlerErr Unit :=
  let s1 : SigState := { s with handlerRegistered := false }
  ((resetConnection s1 freshSeq).1, Except.error HandlerErr.aborted)

/-- Embedding of `Signaling.sendToken` (src/saltyrtc/signaling.ts, lines
398-409): build a `token` packet for `0x01`, flip the responder sub-state to
`token-sent`, and send. -/
def sendToken (s : SigState) : SigState × Except Err Unit :=
  match buildPacket s { type := MsgType.token, key := s.permanentKey } 1 true with
  | (s1, Except.error e) => (s1, Except.error e)
  | (s1, Except.ok pkt) =>
    let s2 : SigState :=
      if s1.role = Role.responder
      then { s1 with initiatorHandshakeState := some IHState.tokenSent }
      else s1
    ({ s2 with sent := s2.sent ++ [pkt] }, Except.ok ())

/-- Server-source branch of `onPeerHandshakeMessage` (src/saltyrtc/
signaling.ts, lines 660-683): decrypt with the permanent/server keys (note:
not through the aborting `decrypt` helper), decode, then handle
`new-responder` and `new-initiator`. -/
def handleServerMessage (s : SigState) (inb : Inbound) (fresh : Fresh) :
    SigState × Except HandlerErr Unit :=
  match s.serverKey with
  | none => (s, Except.error (HandlerErr.raw Err.typeError))
  | some sk =>
    match decryptBox (mkBox s.permanentKey sk) inb.body with
    | Except.error e => (s, Except.error (HandlerErr.raw e))
    | Except.ok d =>
      match decodeMessage d none with
      | Except.error e => (s, Except.error (HandlerErr.raw e))
      | Except.ok message =>
        if message.type = MsgType.newResponder then
          match s.responders with
          | none => (s, Except.error (HandlerErr.raw Err.typeError))
          | some rs =>
            if mapHasKey rs message.id then (s, Except.ok ())
            else
              let rs1 := rs ++
                [(message.id, Responder.mkNew message.id fresh.respKeyPub fresh.respSeq)]
              ({ s with responders := some rs1 }, Except.ok ())
        else if message.type = MsgType.newInitiator then
          match sendToken { s with initiatorConnected := some true } with
          | (s2, Except.error e) => (s2, Except.error (HandlerErr.raw e))
          | (s2, Except.ok _) => (s2, Except.ok ())
        else (s, Except.ok ())

/-- The key-selecting `decrypt` step of the initiator-source branch
(src/saltyrtc/signaling.ts, lines 694-703): permanent keys in sub-state
`token-sent`, session keys otherwise; a `decryption-failed` error runs the
abort path. -/
def initiatorDecrypt (s : SigState) (inb : Inbound) (fresh : Fresh) :
    SigState × Except HandlerErr Message :=
  if s.initiatorHandshakeState = some IHState.tokenSent then
    match s.initiatorPermanentKey with
    | none => (s, Except.error (HandlerErr.raw Err.typeError))
    | some ipk =>
      match decryptBox (mkBox s.permanentKey ipk) inb.body with
      | Except.error _ =>
        let a := abortS s fresh.resetSeq
        (a.1, Except.error HandlerErr.aborted)
      | Except.ok d => (s, Except.ok d)
  else
    match s.sessionKey, s.initiatorSessionKey with
    | some sk0, some isk =>
      match decryptBox (mkBox sk0 isk) inb.body with
      | Except.error _ =>
        let a := abortS s fresh.resetSeq
        (a.1, Except.error HandlerErr.aborted)
      | Except.ok d => (s, Except.ok d)
    | _, _ => (s, Except.error (HandlerErr.raw Err.typeError))

/-- Initiator-source branch of `onPeerHandshakeMessage` (responder role;
src/saltyrtc/signaling.ts, lines 684-769). -/
def handleInitiatorMessage (s : SigState) (inb : Inbound) (fresh : Fresh) :
    SigState × Except HandlerErr Unit :=
  if s.role ≠ Role.responder then abortS s fresh.resetSeq
  else
    match initiatorDecrypt s inb fresh with
    | (s1, Except.error e) => (s1, Except.error e)
    | (s1, Except.ok decrypted) =>
      match decodeMessage decrypted none with
      | Except.error e => (s1, Except.error (HandlerErr.raw e))
      | Except.ok message =>
        if s1.initiatorHandshakeState = some IHState.tokenSent then
          if message.type ≠ MsgType.key then abortS s1 fresh.resetSeq
          else
            let s2 : SigState := { s1 with initiatorSessionKey := some message.key,
                                           sessionKey := some fresh.sessionPub }
            match buildPacket s2 { type := MsgType.key, key := fresh.sessionPub } 1 true with
            | (s3, Except.error e) => (s3, Except.error (HandlerErr.raw e))
            | (s3, Except.ok pkt) =>
              ({ s3 with sent := s3.sent ++ [pkt],
                         initiatorHandshakeState := some IHState.keySent },
               Except.ok ())
        else if s1.initiatorHandshakeState = some IHState.keySent then
          if message.type ≠ MsgType.auth then abortS s1 fresh.resetSeq
          else
            match s1.cookiePair with
            | none => (s1, Except.error (HandlerErr.raw Err.typeError))
            | some cp =>
              if message.yourCookie ≠ cp.ours then abortS s1 fresh.resetSeq
              else
                let s2 : SigState :=
                  { s1 with handlerRegistered := false,
                            initiatorHandshakeState := some IHState.authReceived }
                if inb.nonce.cookie = cp.ours then abortS s2 fresh.resetSeq
                else
                  match buildPacket s2
                      { type := MsgType.auth, yourCookie := inb.nonce.cookie } 1 true with
                  | (s3, Except.error e) => (s3, Except.error (HandlerErr.raw e))
                  | (s3, Except.ok pkt) =>
                    ({ s3 with sent := s3.sent ++ [pkt], state := ConnState.opened },
                     Except.ok ())
        else (s1, Except.ok ())

/-- The `drop all other responders` loop of the `key-received` branch
(src/saltyrtc/signaling.ts, lines 866-876): for each remaining responder id,
build and send a `drop-responder` packet to the server and delete the map
entry. -/
def dropLoop : SigState → List Nat → SigState × Except Err Unit
  | s, [] => (s, Except.ok ())
  | s, id :: rest =>
    match buildPacket s { type := MsgType.dropResponder, id := id } 0 true with
    | (s1, Except.error e) => (s1, Except.error e)
    | (s1, Except.ok pkt) =>
      let s2 : SigState := { s1 with sent := s1.sent ++ [pkt] }
      let s3 : SigState := { s2 with responders := s2.responders.map (mapErase · id) }
      dropLoop s3 rest

/-- Responder-record state `'new'` of the responder-source branch
(src/saltyrtc/signaling.ts, lines 785-808): expect a `token` message under
the auth token, store the responder permanent key, reply with `key`. -/
def handleRespNew (s : SigState) (inb : Inbound) (rs : List (Nat × Responder))
    (r : Responder) (fresh : Fresh) : SigState × Except HandlerErr Unit :=
  match decryptBox (EncKey.authTok s.authToken) inb.body with
  | Except.error _ => abortS s fresh.resetSeq
  | Except.ok d =>
    match decodeMessage d none with
    | Except.error e => (s, Except.error (HandlerErr.raw e))
    | Except.ok message =>
      if message.type ≠ MsgType.token then abortS s fresh.resetSeq
      else
        let r1 : Responder := { r with permanentKey := some message.key,
                                       state := RespState.tokenReceived }
        let s1 : SigState := { s with responders := some (mapSet rs inb.nonce.source r1) }
        match buildPacket s1 { type := MsgType.key, key := r.keyStore } r.id true with
        | (s2, Except.error e) => (s2, Except.error (HandlerErr.raw e))
        | (s2, Except.ok pkt) => ({ s2 with sent := s2.sent ++ [pkt] }, Except.ok ())

/-- Responder-record state `'token-received'` (src/saltyrtc/signaling.ts,
lines 809-839): expect a `key` message under the permanent keys, store the
responder session key, check the nonce cookie differs from ours, reply with
`auth` echoing the nonce cookie. -/
def handleRespTokenReceived (s : SigState) (inb : Inbound)
    (rs : List (Nat × Responder)) (r : Responder) (fresh : Fresh) :
    SigState × Except HandlerErr Unit :=
  match r.permanentKey with
  | none => (s, Except.error (HandlerErr.raw Err.typeError))
  | some rpk =>
    match decryptBox (mkBox s.permanentKey rpk) inb.body with
    | Except.error _ => abortS s fresh.resetSeq
    | Except.ok d =>
      match decodeMessage d none with
      | Except.error e => (s, Except.error (HandlerErr.raw e))
      | Except.ok message =>
        if message.type ≠ MsgType.key then abortS s fresh.resetSeq
        else
          let r1 : Responder := { r with sessionKey := some message.key,
                                         state := RespState.keyReceived }
          let s1 : SigState := { s with responders := some (mapSet rs inb.nonce.source r1) }
          match s1.cookiePair with
          | none => (s1, Except.error (HandlerErr.raw Err.typeError))
          | some cp =>
            if inb.nonce.cookie = cp.ours then abortS s1 fresh.resetSeq
            else
              match buildPacket s1
                  { type := MsgType.auth, yourCookie := inb.nonce.cookie } r.id true with
              | (s2, Except.error e) => (s2, Except.error (HandlerErr.raw e))
              | (s2, Except.ok pkt) => ({ s2 with sent := s2.sent ++ [pkt] }, Except.ok ())

/-- Responder-record state `'key-received'` (src/saltyrtc/signaling.ts,
lines 840-886): expect an `auth` message under the session keys, validate
`your_cookie`, elect the responder, drop all others, deregister the
handshake handler and open the connection. -/
def handleRespKeyReceived (s : SigState) (inb : Inbound)
    (rs : List (Nat × Responder)) (r : Responder) (fresh : Fresh) :
    SigState × Except HandlerErr Unit :=
  match r.sessionKey with
  | none => (s, Except.error (HandlerErr.raw Err.typeError))
  | some rsk =>
    match decryptBox (mkBox r.keyStore rsk) inb.body with
    | Except.error _ => abortS s fresh.resetSeq
    | Except.ok d =>
      match decodeMessage d none with
      | Except.error e => (s, Except.error (HandlerErr.raw e))
      | Except.ok message =>
        if message.type ≠ MsgType.auth then abortS s fresh.resetSeq
        else
          match s.cookiePair with
          | none => (s, Except.error (HandlerErr.raw Err.typeError))
          | some cp =>
            if message.yourCookie ≠ cp.ours then abortS s fresh.resetSeq
            else
              let rs1 := mapErase rs inb.nonce.source
              let s1 : SigState := { s with responder := some r,
                                            responders := some rs1,
                                            sessionKey := some r.keyStore }
              match dropLoop s1 (rs1.map Prod.fst) with
              | (s2, Except.error e) => (s2, Except.error (HandlerErr.raw e))
              | (s2, Except.ok _) =>
                ({ s2 with handlerRegistered := false, state := ConnState.opened },
                 Except.ok ())

/-- Responder-source branch of `onPeerHandshakeMessage` (initiator role;
src/saltyrtc/signaling.ts, lines 770-886): unknown responders are logged and
dropped, otherwise dispatch on the responder record state. -/
def handleResponderMessage (s : SigState) (inb : Inbound) (fresh : Fresh) :
    SigState × Except HandlerErr Unit :=
  if s.role ≠ Role.initiator then abortS s fresh.resetSeq
  else
    match s.responders with
    | none => (s, Except.error (HandlerErr.raw Err.typeError))
    | some rs =>
      match mapLookup rs inb.nonce.source with
      | none => (s, Except.ok ())
      | some r =>
        match r.state with
        | RespState.new => handleRespNew s inb rs r fresh
        | RespState.tokenReceived => handleRespTokenReceived s inb rs r fresh
        | RespState.keyReceived => handleRespKeyReceived s inb rs r fresh

/-- Embedding of `Signaling.onPeerHandshakeMessage` (src/saltyrtc/
signaling.ts, lines 614-891): peek the nonce, validate the destination (an
exception here propagates without the abort path), then dispatch on the
source byte. -/
def onPeerHandshakeMessage (s : SigState) (inb : Inbound) (fresh : Fresh) :
    SigState × Except HandlerErr Unit :=
  match validateNonce inb.nonce (some s.address) none with
  | Except.error e => (s, Except.error (HandlerErr.raw e))
  | Except.ok _ =>
    if inb.nonce.source = 0 then handleServerMessage s inb fresh
    else if inb.nonce.source = 1 then handleInitiatorMessage s inb fresh
    else if 2 ≤ inb.nonce.source ∧ inb.nonce.source ≤ 0xff then
      handleResponderMessage s inb fresh
    else abortS s fresh.resetSeq

/-- The cookie regeneration loop of the `server-hello` block: draw cookies
from `supply` until one differs from the peer cookie (`none` when the finite
supply models an unlucky random stream that never terminates the loop). -/
def genCookie : List Cookie → Cookie → Option Cookie
  | [], _ => none
  | c :: rest, theirCookie =>
    if c = theirCookie then genCookie rest theirCookie else some c

/-- Embedding of the `server-hello` block of `Signaling.serverHandshake`
(src/saltyrtc/signaling.ts, lines 281-306): validate the nonce and the
message type, store the server public key, generate a cookie distinct from
the nonce cookie and store the cookie pair. -/
def processServerHello (s : SigState) (nonce : NonceM) (serverHello : Message)
    (supply : List Cookie) : Except Err SigState :=
  match validateNonce nonce (some s.address) (some 0) with
  | Except.error e => Except.error e
  | Except.ok _ =>
    if serverHello.type ≠ MsgType.serverHello then Except.error Err.badMessageType
    else
      let s1 : SigState := { s with serverKey := some serverHello.key }
      match genCookie supply nonce.cookie with
      | none => Except.error Err.randomExhausted
      | some cookie =>
        Except.ok { s1 with cookiePair := some { ours := cookie, theirs := nonce.cookie } }

/-! ### Helper definitions for statements -/

/-- Sum of the payload sizes (`chunk.length - 1`) of a chunk list, as
accumulated in the `length` field of `Unchunkifier`. -/
def sumTails (cs : List (List Nat)) : Nat :=
  (cs.map (fun ch => ch.length - 1)).sum

/-- Concatenation of the payloads (tails) of a chunk list. -/
def concatTails (cs : List (List Nat)) : List Nat :=
  (cs.map List.tail).flatten

/-- The chunk list produced for a buffer and chunk size accepted by the
`Chunkifier` constructor. -/
def chunksOf (buf : List Nat) (C : Nat) (h1 : 1 ≤ buf.length) (h2 : 2 ≤ C) :
    List (List Nat) :=
  (Chunkifier.mk buf C h1 h2).getChunks

/-- The three boolean facts characterising a state the abort path leaves
behind: engine reset to `'new'`, WebSocket closed and dropped, and the
peer-handshake message handler deregistered. -/
def abortedState (s : SigState) : Prop :=
  s.state = ConnState.new ∧ s.ws = false ∧ s.handlerRegistered = false

/-! ### Concrete states used by counterexamples and witnesses -/

/-- A responder record in state `key-received`. -/
def cexResponder2 : Responder :=
  { id := 2, permanentKey := some 30, sessionKey := some 31, keyStore := 32,
    state := RespState.keyReceived,
    combinedSequence := { sequenceNumber := 7, overflow := 0 } }

/-- A second responder record, still in state `new`. -/
def cexResponder3 : Responder :=
  { id := 3, permanentKey := some 40, sessionKey := some 41, keyStore := 42,
    state := RespState.new,
    combinedSequence := { sequenceNumber := 8, overflow := 0 } }

/-- An initiator engine in the peer handshake with two connected
responders. -/
def cexSigState : SigState :=
  { state := ConnState.peerHandshake, role := Role.initiator, address := 1,
    permanentKey := 10, sessionKey := none, authToken := 99,
    serverKey := some 20,
    cookiePair := some { ours := { bytes := [1] }, theirs := { bytes := [2] } },
    serverCombinedSequence := { sequenceNumber := 5, overflow := 0 },
    responders := some [(2, cexResponder2), (3, cexResponder3)],
    responder := none, initiatorPermanentKey := none, initiatorSessionKey := none,
    initiatorConnected := none, initiatorHandshakeState := none,
    initiatorCombinedSequence := { sequenceNumber := 9, overflow := 0 },
    ws := true, handlerRegistered := true, sent := [] }

/-- An `auth` message carrying the peer's cookie. -/
def cexAuthMsg : Message :=
  { type := MsgType.auth, yourCookie := { bytes := [2] } }

/-- The packet `buildPacket` returns for `cexSigState`, `cexAuthMsg`,
receiver `0x02`: the nonce carries responder 2's current (not advanced)
combined sequence. -/
def cexPacket2 : Packet :=
  { nonce := { cookie := { bytes := [1] }, source := 1, destination := 2,
               overflow := 0, sequenceNumber := 7 },
    encKey := some (EncKey.box 31 32),
    message := cexAuthMsg }

/-- A valid `auth` frame from responder 2 electing it. -/
def cexInboundElect : Inbound :=
  { nonce := { cookie := { bytes := [5] }, source := 2, destination := 1,
               overflow := 0, sequenceNumber := 3 },
    body := { encKey := mkBox 32 31,
              message := { type := MsgType.auth, yourCookie := { bytes := [1] } } } }

/-- The same frame with a wrong destination byte. -/
def cexInboundBadDest : Inbound :=
  { nonce := { cookie := { bytes := [5] }, source := 2, destination := 9,
               overflow := 0, sequenceNumber := 3 },
    body := { encKey := mkBox 32 31,
              message := { type := MsgType.auth, yourCookie := { bytes := [1] } } } }

/-- A frame with source byte `0x01` (initiator), sent to the initiator-role
engine `cexSigState`. -/
def cexInboundFromInitiator : Inbound :=
  { nonce := { cookie := { bytes := [5] }, source := 1, destination := 1,
               overflow := 0, sequenceNumber := 3 },
    body := { encKey := mkBox 32 31,
              message := { type := MsgType.auth, yourCookie := { bytes := [1] } } } }

/-- An `auth` frame from responder 2 sealed under a wrong key. -/
def cexInboundBadKey : Inbound :=
  { nonce := { cookie := { bytes := [5] }, source := 2, destination := 1,
               overflow := 0, sequenceNumber := 3 },
    body := { encKey := mkBox 77 78,
              message := { type := MsgType.auth, yourCookie := { bytes := [1] } } } }

/-- Fresh random draws for handler invocations in concrete runs. -/
def cexFresh : Fresh :=
  { resetSeq := 0, sessionPub := 0, respKeyPub := 0, respSeq := 0 }

/-- An engine state before the server handshake. -/
def witSrvState : SigState :=
  { cexSigState with state := ConnState.serverHandshake, address := 0,
                     serverKey := none, cookiePair := none }

/-- The nonce of a concrete `server-hello` frame. -/
def witSrvNonce : NonceM :=
  { cookie := { bytes := [2] }, source := 0, destination := 0,
    overflow := 0, sequenceNumber := 1 }

/-- A concrete `server-hello` message. -/
def witSrvHello : Message :=
  { type := MsgType.serverHello, key := 20 }

/-- A cookie supply whose first draw collides with the server cookie, so the
regeneration loop runs once. -/
def witSrvSupply : List Cookie :=
  [{ bytes := [2] }, { bytes := [3] }]

/-- The state `processServerHello` produces from `witSrvState`,
`witSrvNonce`, `witSrvHello` and `witSrvSupply`. -/
def witSrvResult : SigState :=
  { witSrvState with
      serverKey := some 20,
      cookiePair := some { ours := { bytes := [3] }, theirs := { bytes := [2] } } }

/-! ## Lemmas about the chunking sublayer -/

theorem offset_succ (c : Chunkifier) (i : Nat) :
    c.offset (i + 1) = c.offset i + (c.chunkSize - 1) := by
  simp [Chunkifier.offset, Nat.succ_mul]

theorem offset_add (c : Chunkifier) (i j : Nat) :
    c.offset (i + j) = c.offset i + c.offset j := by
  simp [Chunkifier.offset, Nat.add_mul]

theorem one_le_chunkStep (c : Chunkifier) : 1 ≤ c.chunkSize - 1 :=
  Nat.le_sub_of_add_le c.hsize

theorem getChunksFrom_pos (c : Chunkifier) (i : Nat)
    (h : c.offset i < c.array.length) :
    c.getChunksFrom i = c.chunkAt i :: c.getChunksFrom (i + 1) := by
  rw [Chunkifier.getChunksFrom]
  simp [Chunkifier.hasNext, h]

theorem getChunksFrom_neg (c : Chunkifier) (i : Nat)
    (h : ¬ c.offset i < c.array.length) :
    c.getChunksFrom i = [] := by
  rw [Chunkifier.getChunksFrom]
  simp [Chunkifier.hasNext, h]

theorem chunkAt_head (c : Chunkifier) (i : Nat) :
    (c.chunkAt i).head? =
      some (if c.offset (i + 1) < c.array.length then 1 else 0) := by
  by_cases h : c.offset (i + 1) < c.array.length <;>
    simp [Chunkifier.chunkAt, Chunkifier.hasNext, h]

theorem chunkAt_tail (c : Chunkifier) (i : Nat) :
    (c.chunkAt i).tail =
      (c.array.drop (c.offset i)).take
        (min (c.offset (i + 1)) c.array.length - c.offset i) := rfl

theorem chunkAt_length (c : Chunkifier) (i : Nat) :
    (c.chunkAt i).length =
      1 + (min (c.offset (i + 1)) c.array.length - c.offset i) := by
  simp [Chunkifier.chunkAt]
  omega

theorem chunkAt_cons (c : Chunkifier) (i : Nat) :
    c.chunkAt i =
      (if c.offset (i + 1) < c.array.length then 1 else 0) ::
        (c.array.drop (c.offset i)).take
          (min (c.offset (i + 1)) c.array.length - c.offset i) := by
  by_cases h : c.offset (i + 1) < c.array.length <;>
    simp [Chunkifier.chunkAt, Chunkifier.hasNext, h]

theorem concatTails_getChunksFrom (c : Chunkifier) :
    ∀ (n i : Nat), c.array.length - c.offset i ≤ n →
    concatTails (c.getChunksFrom i) = c.array.drop (c.offset i) := by
  intro n
  induction n with
  | zero =>
    intro i h
    rw [getChunksFrom_neg c i (by omega)]
    have hle : c.array.length ≤ c.offset i := by omega
    simp [concatTails, List.drop_eq_nil_iff.mpr hle]
  | succ n ih =>
    intro i h
    by_cases hlt : c.offset i < c.array.length
    · rw [getChunksFrom_pos c i hlt]
      have hso := offset_succ c i
      have hd := one_le_chunkStep c
      have ihr := ih (i + 1) (by omega)
      simp only [concatTails, List.map_cons, List.flatten_cons] at ihr ⊢
      rw [chunkAt_tail, ihr]
      by_cases hL : c.offset (i + 1) ≤ c.array.length
      · have hmin : min (c.offset (i + 1)) c.array.length = c.offset (i + 1) :=
          min_eq_left hL
        rw [hmin]
        have hdd : c.array.drop (c.offset (i + 1)) =
            (c.array.drop (c.offset i)).drop (c.offset (i + 1) - c.offset i) := by
          rw [List.drop_drop]
          congr 1
          omega
        rw [hdd, List.take_append_drop]
      · have hmin : min (c.offset (i + 1)) c.array.length = c.array.length :=
          min_eq_right (by omega)
        rw [hmin]
        have hnil : c.array.drop (c.offset (i + 1)) = [] :=
          List.drop_eq_nil_iff.mpr (by omega)
        rw [hnil, List.append_nil]
        rw [List.take_of_length_le (by simp)]
    · rw [getChunksFrom_neg c i hlt]
      have hle : c.array.length ≤ c.offset i := by omega
      simp [concatTails, List.drop_eq_nil_iff.mpr hle]

theorem length_concatTails (cs : List (List Nat)) :
    (concatTails cs).length = sumTails cs := by
  induction cs with
  | nil => simp [concatTails, sumTails]
  | cons ch cs ih =>
    simp only [concatTails, sumTails, List.map_cons, List.flatten_cons,
      List.length_append, List.sum_cons, List.length_tail] at ih ⊢
    omega

theorem addAll_getChunksFrom (c : Chunkifier) :
    ∀ (n i : Nat) (s : UState), c.array.length - c.offset i ≤ n →
    c.offset i < c.array.length → s.done = false →
    addAll s (c.getChunksFrom i) =
      Except.ok { chunks := s.chunks ++ c.getChunksFrom i,
                  length := s.length + (c.array.length - c.offset i),
                  done := true, merged := s.merged } := by
  intro n
  induction n with
  | zero => intro i s h hlt _; omega
  | succ n ih =>
    intro i s h hlt hdone
    have hso := offset_succ c i
    have hd := one_le_chunkStep c
    have hlen := chunkAt_length c i
    rw [getChunksFrom_pos c i hlt]
    by_cases hnext : c.offset (i + 1) < c.array.length
    · -- a middle chunk with flag byte 1
      have hchunk := chunkAt_cons c i
      rw [if_pos hnext] at hchunk
      have hadd : Unchunkifier.add s (c.chunkAt i) =
          ({ s with chunks := s.chunks ++ [c.chunkAt i],
                    length := s.length + ((c.chunkAt i).length - 1) },
           Except.ok (some false)) := by
        rw [hchunk]
        simp [Unchunkifier.add, hdone]
      simp only [addAll, hadd]
      rw [ih (i + 1)
        { s with chunks := s.chunks ++ [c.chunkAt i],
                 length := s.length + ((c.chunkAt i).length - 1) }
        (by omega) hnext hdone]
      simp only [Except.ok.injEq, UState.mk.injEq, List.append_assoc,
        List.singleton_append, true_and, and_true]
      omega
    · -- the terminal chunk with flag byte 0
      have hchunk := chunkAt_cons c i
      rw [if_neg hnext] at hchunk
      have hadd : Unchunkifier.add s (c.chunkAt i) =
          ({ s with chunks := s.chunks ++ [c.chunkAt i],
                    length := s.length + ((c.chunkAt i).length - 1),
                    done := true },
           Except.ok (some true)) := by
        rw [hchunk]
        simp [Unchunkifier.add, hdone]
      simp only [addAll, hadd, getChunksFrom_neg c (i + 1) hnext,
        Except.ok.injEq, UState.mk.injEq, List.append_assoc,
        List.singleton_append, true_and, and_true]
      omega

theorem writeChunks_spec :
    ∀ (cs : List (List Nat)) (pre suf : List Nat),
    sumTails cs ≤ suf.length →
    writeChunks (pre ++ suf) pre.length cs =
      pre ++ concatTails cs ++ suf.drop (sumTails cs) := by
  intro cs
  induction cs with
  | nil =>
    intro pre suf _
    simp [writeChunks, concatTails, sumTails]
  | cons ch cs ih =>
    intro pre suf hle
    have htl : ch.tail.length = ch.length - 1 := List.length_tail ch
    have hsum : sumTails (ch :: cs) = ch.tail.length + sumTails cs := by
      simp only [sumTails, List.map_cons, List.sum_cons, htl]
    have hset : setAt (pre ++ suf) pre.length ch.tail =
        (pre ++ ch.tail) ++ suf.drop ch.tail.length := by
      unfold setAt
      rw [List.take_left' rfl, ← List.drop_drop, List.drop_left]
    rw [writeChunks, hset, ← htl]
    rw [show pre.length + ch.tail.length = (pre ++ ch.tail).length by simp]
    rw [ih (pre ++ ch.tail) (suf.drop ch.tail.length)
      (by rw [List.length_drop]; omega)]
    rw [List.drop_drop, ← hsum]
    have hct : concatTails (ch :: cs) = ch.tail ++ concatTails cs := by
      simp [concatTails]
    rw [hct]
    simp [List.append_assoc]

/-- Claim C1 helper: the full merge of the state produced by feeding all
chunks. -/
theorem merge_after_addAll (c : Chunkifier) (s : UState)
    (hAll : addAll Unchunkifier.init c.getChunks = Except.ok s) :
    Unchunkifier.merge s = Except.ok c.array := by
  have h0 : c.offset 0 < c.array.length := by
    have := c.harr
    simp only [Chunkifier.offset, Nat.zero_mul]
    omega
  have hAdd := addAll_getChunksFrom c c.array.length 0 Unchunkifier.init
    (by omega) h0 rfl
  rw [Chunkifier.getChunks] at hAll
  rw [hAdd] at hAll
  have hs : s = { chunks := Unchunkifier.init.chunks ++ c.getChunksFrom 0,
                  length := Unchunkifier.init.length + (c.array.length - c.offset 0),
                  done := true, merged := Unchunkifier.init.merged } := by
    cases hAll
    rfl
  subst hs
  have hconcat := concatTails_getChunksFrom c c.array.length 0 (by omega)
  have hoff0 : c.offset 0 = 0 := by simp [Chunkifier.offset]
  rw [hoff0] at hconcat hAdd
  rw [List.drop_zero] at hconcat
  have hsum : sumTails (c.getChunksFrom 0) = c.array.length := by
    rw [← length_concatTails, hconcat]
  unfold Unchunkifier.merge
  simp only [Unchunkifier.init, List.nil_append, Nat.zero_add, Nat.sub_zero,
    Bool.not_true, Bool.false_eq_true, if_false, ite_false]
  have hw := writeChunks_spec (c.getChunksFrom 0) []
    (List.replicate c.array.length 0) (by simp [hsum])
  simp only [List.nil_append, List.length_nil] at hw
  rw [hoff0]
  simp only [Nat.sub_zero]
  rw [hw, hsum, hconcat]
  simp

/-- Claim C1: for every non-empty buffer and chunk size at least 2, feeding
the chunks of `Chunkifier.getChunks` in order into a fresh `Unchunkifier`
via `add` and then calling `merge` returns the original buffer. -/
theorem chunk_roundtrip (buf : List Nat) (C : Nat)
    (h1 : 1 ≤ buf.length) (h2 : 2 ≤ C) :
    ∃ s, addAll Unchunkifier.init (chunksOf buf C h1 h2) = Except.ok s ∧
         Unchunkifier.merge s = Except.ok buf := by
  set c := Chunkifier.mk buf C h1 h2 with hc
  have h0 : c.offset 0 < c.array.length := by
    simp only [Chunkifier.offset, Nat.zero_mul]
    exact h1
  have hAdd := addAll_getChunksFrom c c.array.length 0
    Unchunkifier.init (by omega) h0 rfl
  exact ⟨_, hAdd, merge_after_addAll c _ hAdd⟩

/-- Claim C1 witness: the round trip at `buf = [1,2,3,4,5,6]`, `C = 3`. -/
theorem chunk_roundtrip_witness :
    ∃ s, addAll Unchunkifier.init
          (chunksOf [1, 2, 3, 4, 5, 6] 3 (by decide) (by decide)) = Except.ok s ∧
         Unchunkifier.merge s = Except.ok [1, 2, 3, 4, 5, 6] :=
  chunk_roundtrip [1, 2, 3, 4, 5, 6] 3 (by decide) (by decide)

theorem length_getChunksFrom (c : Chunkifier) :
    ∀ (n i : Nat), c.array.length - c.offset i ≤ n →
    (c.getChunksFrom i).length =
      (c.array.length - c.offset i + c.chunkSize - 2) / (c.chunkSize - 1) := by
  intro n
  induction n with
  | zero =>
    intro i h
    rw [getChunksFrom_neg c i (by omega)]
    have hz : c.array.length - c.offset i = 0 := by omega
    rw [hz]
    simp only [List.length_nil, Nat.zero_add]
    exact (Nat.div_eq_of_lt (by have := c.hsize; omega)).symm
  | succ n ih =>
    intro i h
    by_cases hlt : c.offset i < c.array.length
    · rw [getChunksFrom_pos c i hlt]
      simp only [List.length_cons]
      have hso := offset_succ c i
      have hd := one_le_chunkStep c
      have hC := c.hsize
      rw [ih (i + 1) (by omega)]
      set d := c.chunkSize - 1 with hdd
      have hsub : c.array.length - c.offset (i + 1) =
          c.array.length - c.offset i - d := by omega
      rw [hsub]
      set m := c.array.length - c.offset i with hm
      have hm1 : 1 ≤ m := by omega
      have hc2 : ∀ x : Nat, x + c.chunkSize - 2 = x + (d - 1) := by
        intro x; omega
      rw [hc2, hc2]
      rcases le_or_lt d m with hcase | hcase
      · have e1 : m - d + (d - 1) = m - 1 := by omega
        have e2 : m + (d - 1) = m - 1 + d := by omega
        rw [e1, e2, Nat.add_div_right _ (by omega)]
      · have e1 : m - d + (d - 1) = d - 1 := by omega
        rw [e1, Nat.div_eq_of_lt (by omega)]
        have e2 : (m + (d - 1)) / d = 1 := by
          apply Nat.div_eq_of_lt_le <;> omega
        rw [e2]
    · rw [getChunksFrom_neg c i hlt]
      have hz : c.array.length - c.offset i = 0 := by omega
      rw [hz]
      simp only [List.length_nil, Nat.zero_add]
      exact (Nat.div_eq_of_lt (by have := c.hsize; omega)).symm

theorem lt_length_getChunksFrom (c : Chunkifier) :
    ∀ (n i j : Nat), c.array.length - c.offset i ≤ n →
    (j < (c.getChunksFrom i).length ↔ c.offset (i + j) < c.array.length) := by
  intro n
  induction n with
  | zero =>
    intro i j h
    rw [getChunksFrom_neg c i (by omega), offset_add]
    simp only [List.length_nil]
    omega
  | succ n ih =>
    intro i j h
    by_cases hlt : c.offset i < c.array.length
    · rw [getChunksFrom_pos c i hlt]
      simp only [List.length_cons]
      have hso := offset_succ c i
      have hd := one_le_chunkStep c
      cases j with
      | zero => simp [hlt]
      | succ k =>
        rw [Nat.succ_lt_succ_iff, ih (i + 1) k (by omega),
          show i + 1 + k = i + (k + 1) by omega]
    · rw [getChunksFrom_neg c i hlt, offset_add]
      simp only [List.length_nil]
      omega

theorem getElem?_getChunksFrom (c : Chunkifier) :
    ∀ (n i j : Nat), c.array.length - c.offset i ≤ n →
    c.offset (i + j) < c.array.length →
    (c.getChunksFrom i)[j]? = some (c.chunkAt (i + j)) := by
  intro n
  induction n with
  | zero =>
    intro i j h hj
    rw [offset_add] at hj
    omega
  | succ n ih =>
    intro i j h hj
    have hso := offset_succ c i
    have hd := one_le_chunkStep c
    have hi : c.offset i < c.array.length := by
      rw [offset_add] at hj
      omega
    rw [getChunksFrom_pos c i hi]
    cases j with
    | zero => simp
    | succ k =>
      simp only [List.getElem?_cons_succ]
      rw [ih (i + 1) k (by omega)
        (by rw [show i + 1 + k = i + (k + 1) by omega]; exact hj)]
      rw [show i + 1 + k = i + (k + 1) by omega]

/-- Claim C5: the chunk count is the rounded-up quotient of the buffer
length by `C - 1`; every chunk but the last starts with flag `0x01` and has
total length `C`; the last chunk starts with flag `0x00` and carries the
remaining `r ∈ [1, C-1]` payload bytes. -/
theorem chunk_shape (buf : List Nat) (C : Nat)
    (h1 : 1 ≤ buf.length) (h2 : 2 ≤ C) :
    (chunksOf buf C h1 h2).length = (buf.length + C - 2) / (C - 1) ∧
    (∀ i, i + 1 < (chunksOf buf C h1 h2).length →
      ∃ ch, (chunksOf buf C h1 h2)[i]? = some ch ∧
        ch.head? = some 1 ∧ ch.length = C) ∧
    (∃ last r,
      (chunksOf buf C h1 h2)[(chunksOf buf C h1 h2).length - 1]? = some last ∧
      last.head? = some 0 ∧ last.length = 1 + r ∧ 1 ≤ r ∧ r ≤ C - 1 ∧
      r = buf.length - ((chunksOf buf C h1 h2).length - 1) * (C - 1)) := by
  set c := Chunkifier.mk buf C h1 h2 with hc
  have hCS : c.chunkSize = C := rfl
  have hLL : c.array.length = buf.length := rfl
  have hd := one_le_chunkStep c
  have hoff0 : c.offset 0 = 0 := by simp [Chunkifier.offset]
  have hchunksOf : chunksOf buf C h1 h2 = c.getChunksFrom 0 := rfl
  have hlen := length_getChunksFrom c c.array.length 0 (by omega)
  rw [hoff0, Nat.sub_zero] at hlen
  have hiff : ∀ j, j < (c.getChunksFrom 0).length ↔
      c.offset j < c.array.length := by
    intro j
    have := lt_length_getChunksFrom c c.array.length 0 j (by omega)
    rwa [Nat.zero_add] at this
  have hget : ∀ j, c.offset j < c.array.length →
      (c.getChunksFrom 0)[j]? = some (c.chunkAt j) := by
    intro j hj
    have := getElem?_getChunksFrom c c.array.length 0 j (by omega)
      (by rwa [Nat.zero_add])
    rwa [Nat.zero_add] at this
  refine ⟨by rw [hchunksOf, hlen, hCS, hLL], ?_, ?_⟩
  · intro i hi
    rw [hchunksOf] at hi ⊢
    have hso := offset_succ c i
    have hi1 : c.offset (i + 1) < c.array.length := (hiff (i + 1)).mp hi
    have hi0 : c.offset i < c.array.length := by omega
    refine ⟨c.chunkAt i, hget i hi0, ?_, ?_⟩
    · rw [chunkAt_head, if_pos hi1]
    · rw [chunkAt_length, min_eq_left (by omega)]
      omega
  · rw [hchunksOf]
    have hpos : 0 < (c.getChunksFrom 0).length := by
      rw [hiff 0, hoff0]
      omega
    set n := (c.getChunksFrom 0).length with hn
    have hlast : c.offset (n - 1) < c.array.length := (hiff (n - 1)).mp (by omega)
    have hend : ¬ c.offset n < c.array.length := by
      rw [← hiff n]
      omega
    have hso := offset_succ c (n - 1)
    have hsucc : n - 1 + 1 = n := by omega
    rw [hsucc] at hso
    refine ⟨c.chunkAt (n - 1), c.array.length - c.offset (n - 1),
      hget (n - 1) hlast, ?_, ?_, by omega, by omega, ?_⟩
    · rw [chunkAt_head, hsucc, if_neg hend]
    · rw [chunkAt_length, hsucc, min_eq_right (by omega)]
    · rw [hLL]
      congr 1

/-- Claim C5 witness: the shape facts at `buf = [1,2,3,4,5,6]`, `C = 3`. -/
theorem chunk_shape_witness :
    (chunksOf [1, 2, 3, 4, 5, 6] 3 (by decide) (by decide)).length =
        (6 + 3 - 2) / (3 - 1) ∧
    (∀ i, i + 1 < (chunksOf [1, 2, 3, 4, 5, 6] 3 (by decide) (by decide)).length →
      ∃ ch, (chunksOf [1, 2, 3, 4, 5, 6] 3 (by decide) (by decide))[i]? = some ch ∧
        ch.head? = some 1 ∧ ch.length = 3) ∧
    (∃ last r,
      (chunksOf [1, 2, 3, 4, 5, 6] 3 (by decide) (by decide))[
        (chunksOf [1, 2, 3, 4, 5, 6] 3 (by decide) (by decide)).length - 1]? =
          some last ∧
      last.head? = some 0 ∧ last.length = 1 + r ∧ 1 ≤ r ∧ r ≤ 3 - 1 ∧
      r = 6 - ((chunksOf [1, 2, 3, 4, 5, 6] 3 (by decide) (by decide)).length - 1)
            * (3 - 1)) :=
  chunk_shape [1, 2, 3, 4, 5, 6] 3 (by decide) (by decide)

/-! ## Unchunkifier edge cases (claims C8 and C9) -/

/-- Claim C8 (code and claim diverge): `add` on a fresh, not-yet-complete
`Unchunkifier` with an empty chunk leaves the state unchanged but returns
`undefined` (`none`), not the boolean `false` that the claim and the method's
own doc comment promise. -/
theorem add_empty_chunk_returns_undefined :
    Unchunkifier.add Unchunkifier.init [] =
      (Unchunkifier.init, Except.ok none) := rfl

/-- Claim C9: an `add` call with a non-empty chunk whose flag byte is
neither 0 nor 1 throws `InvalidChunk`, but only after the chunk has been
appended and the accumulated length increased. -/
theorem add_invalid_chunk_mutates (s : UState) (flag : Nat) (rest : List Nat)
    (hdone : s.done = false) (h0 : flag ≠ 0) (h1 : flag ≠ 1) :
    Unchunkifier.add s (flag :: rest) =
      ({ s with chunks := s.chunks ++ [flag :: rest],
                length := s.length + rest.length },
       Except.error (UErr.invalidChunk flag)) := by
  simp [Unchunkifier.add, hdone, h0, h1]

/-- Claim C9 witness: the invalid flag byte 2 on a fresh dechunker. -/
theorem add_invalid_chunk_mutates_witness :
    Unchunkifier.add Unchunkifier.init [2, 3, 4] =
      ({ Unchunkifier.init with chunks := [[2, 3, 4]], length := 2 },
       Except.error (UErr.invalidChunk 2)) := by
  have h := add_invalid_chunk_mutates Unchunkifier.init 2 [3, 4] rfl
    (by decide) (by decide)
  simpa [Unchunkifier.init] using h

/-! ## CombinedSequence (claim C3) -/

/-- Claim C3 (code and claim diverge): the overflow guard compares against
`0x100000 = 2^20`, not `2^16` as the adjacent comment and the claim state,
so a `next()` call whose wrap pushes the overflow counter to `2^16`
succeeds and returns overflow `65536` instead of failing. -/
theorem csn_overflow_limit_bug :
    CombinedSequence.next { sequenceNumber := 4294967295, overflow := 65535 } =
      Except.ok ({ sequenceNumber := 0, overflow := 65536 },
                 { sequenceNumber := 0, overflow := 65536 }) ∧
    OVERFLOW_MAX = 2 ^ 20 := by
  exact ⟨rfl, rfl⟩

/-! ## buildPacket and the per-responder sequence (claim C2) -/

/-- Claim C2 (code and claim diverge): building two successive packets for
responder `0x02` returns the engine state unchanged — `next()` is never
called on the responder's `CombinedSequence` — and both packets carry the
identical `(overflow, sequenceNumber)` pair `(0, 7)`. -/
theorem buildPacket_responder_csn_not_advanced :
    buildPacket cexSigState cexAuthMsg 2 true =
      (cexSigState, Except.ok cexPacket2) ∧
    buildPacket (buildPacket cexSigState cexAuthMsg 2 true).1 cexAuthMsg 2 true =
      (cexSigState, Except.ok cexPacket2) ∧
    cexPacket2.nonce.overflow = 0 ∧ cexPacket2.nonce.sequenceNumber = 7 := by
  exact ⟨rfl, rfl, rfl, rfl⟩

/-! ## resetConnection frame conditions (claim C10) -/

/-- Claim C10: `resetConnection` sets the state to `'new'`, replaces only
the server combined sequence, closes the WebSocket exactly when one is
attached and drops the reference; every other engine field is unchanged. -/
theorem resetConnection_frame (s : SigState) (seed : Nat) :
    (resetConnection s seed).1.state = ConnState.new ∧
    (resetConnection s seed).1.serverCombinedSequence = CombinedSequence.init seed ∧
    (resetConnection s seed).1.ws = false ∧
    (resetConnection s seed).2 = s.ws ∧
    (resetConnection s seed).1.responders = s.responders ∧
    (resetConnection s seed).1.responder = s.responder ∧
    (resetConnection s seed).1.sessionKey = s.sessionKey ∧
    (resetConnection s seed).1.permanentKey = s.permanentKey ∧
    (resetConnection s seed).1.cookiePair = s.cookiePair ∧
    (resetConnection s seed).1.serverKey = s.serverKey ∧
    (resetConnection s seed).1.initiatorCombinedSequence = s.initiatorCombinedSequence ∧
    (resetConnection s seed).1.authToken = s.authToken ∧
    (resetConnection s seed).1.address = s.address ∧
    (resetConnection s seed).1.role = s.role ∧
    (resetConnection s seed).1.initiatorPermanentKey = s.initiatorPermanentKey ∧
    (resetConnection s seed).1.initiatorSessionKey = s.initiatorSessionKey ∧
    (resetConnection s seed).1.initiatorConnected = s.initiatorConnected ∧
    (resetConnection s seed).1.initiatorHandshakeState = s.initiatorHandshakeState ∧
    (resetConnection s seed).1.sent = s.sent ∧
    (resetConnection s seed).1.handlerRegistered = s.handlerRegistered := by
  simp [resetConnection]

/-! ## Cookie generation in the server handshake (claim C7) -/

theorem genCookie_ne :
    ∀ (supply : List Cookie) (theirCookie c : Cookie),
    genCookie supply theirCookie = some c → c ≠ theirCookie := by
  intro supply
  induction supply with
  | nil => intro t c h; simp [genCookie] at h
  | cons a rest ih =>
    intro t c h
    rw [genCookie] at h
    by_cases ha : a = t
    · rw [if_pos ha] at h
      exact ih t c h
    · rw [if_neg ha] at h
      simp only [Option.some.injEq] at h
      rw [← h]
      exact ha

/-- Claim C7: when processing the `server-hello` succeeds, the stored cookie
pair is `(ours, theirs = nonce.cookie)` with `ours ≠ theirs`: the fresh
cookie is regenerated until it differs from the nonce cookie. -/
theorem server_hello_cookie_pair (s : SigState) (nonce : NonceM) (msg : Message)
    (supply : List Cookie) (s1 : SigState)
    (h : processServerHello s nonce msg supply = Except.ok s1) :
    ∃ ours, s1.cookiePair = some { ours := ours, theirs := nonce.cookie } ∧
      ours ≠ nonce.cookie := by
  unfold processServerHello at h
  split at h
  · simp at h
  · split at h
    · simp at h
    · split at h
      · simp at h
      · rename_i cookie hgen
        simp only [Except.ok.injEq] at h
        subst h
        exact ⟨cookie, rfl, genCookie_ne supply nonce.cookie cookie hgen⟩

/-- Claim C7 witness: a concrete `server-hello` whose cookie collides with
the first random draw, so the regeneration loop runs. -/
theorem server_hello_cookie_pair_witness :
    ∃ ours,
      witSrvResult.cookiePair =
        some { ours := ours, theirs := witSrvNonce.cookie } ∧
      ours ≠ witSrvNonce.cookie :=
  server_hello_cookie_pair witSrvState witSrvNonce witSrvHello witSrvSupply
    witSrvResult rfl

/-! ## Lemmas about `CombinedSequence.next` and `buildPacket` -/

theorem next_ok_of_overflow_lt (cs : CombinedSequence)
    (h : cs.overflow + 1 < OVERFLOW_MAX) :
    ∃ cs1 p, cs.next = Except.ok (cs1, p) ∧ cs1.overflow ≤ cs.overflow + 1 := by
  have hn : ¬ cs.overflow + 1 ≥ OVERFLOW_MAX := by omega
  by_cases hw : cs.sequenceNumber + 1 ≥ SEQUENCE_NUMBER_MAX
  · exact ⟨⟨0, cs.overflow + 1⟩, ⟨0, cs.overflow + 1⟩,
      by simp [CombinedSequence.next, hw, hn], Nat.le_refl (cs.overflow + 1)⟩
  · exact ⟨⟨cs.sequenceNumber + 1, cs.overflow⟩, ⟨cs.sequenceNumber + 1, cs.overflow⟩,
      by simp [CombinedSequence.next, hw], Nat.le_succ cs.overflow⟩

theorem buildPacket_server (s : SigState) (msg : Message) (cp : CookiePair)
    (sk : Nat) (hcp : s.cookiePair = some cp) (hsk : s.serverKey = some sk)
    (hovf : s.serverCombinedSequence.overflow + 1 < OVERFLOW_MAX) :
    ∃ (cs1 : CombinedSequence) (pkt : Packet),
      buildPacket s msg 0 true =
        ({ s with serverCombinedSequence := cs1 }, Except.ok pkt) ∧
      pkt.message = msg ∧
      pkt.nonce.destination = 0 ∧
      cs1.overflow ≤ s.serverCombinedSequence.overflow + 1 := by
  obtain ⟨cs1, p, hnext, hble⟩ := next_ok_of_overflow_lt _ hovf
  refine ⟨cs1,
    { nonce := { cookie := cp.ours, source := s.address, destination := 0,
                 overflow := p.overflow, sequenceNumber := p.sequenceNumber },
      encKey := some (mkBox s.permanentKey sk), message := msg },
    ?_, rfl, rfl, hble⟩
  simp [buildPacket, selectEncKey, hnext, hcp, hsk]

theorem mapErase_cons_self (k : Nat) (v : Responder)
    (m : List (Nat × Responder)) : mapErase ((k, v) :: m) k = m := by
  simp [mapErase]

/-! ## The drop-responder loop -/

theorem dropLoop_spec :
    ∀ (m : List (Nat × Responder)) (s : SigState) (cp : CookiePair) (sk : Nat),
    s.responders = some m →
    s.cookiePair = some cp →
    s.serverKey = some sk →
    s.serverCombinedSequence.overflow + m.length < OVERFLOW_MAX →
    ∃ s2 pkts,
      dropLoop s (m.map Prod.fst) = (s2, Except.ok ()) ∧
      s2.sent = s.sent ++ pkts ∧
      pkts.map (fun p => (p.message.type, p.message.id, p.nonce.destination)) =
        (m.map Prod.fst).map (fun id => (MsgType.dropResponder, id, 0)) ∧
      s2.responders = some [] ∧
      s2.state = s.state ∧
      s2.responder = s.responder ∧
      s2.sessionKey = s.sessionKey ∧
      s2.handlerRegistered = s.handlerRegistered ∧
      s2.ws = s.ws := by
  intro m
  induction m with
  | nil =>
    intro s cp sk hrs _ _ _
    exact ⟨s, [], rfl, by simp, rfl, hrs, rfl, rfl, rfl, rfl, rfl⟩
  | cons kv m ih =>
    intro s cp sk hrs hcp hsk hovf
    obtain ⟨k, v⟩ := kv
    simp only [List.length_cons] at hovf
    obtain ⟨cs1, pkt, hbuild, hmsg, hdst, hble⟩ := buildPacket_server s
      { type := MsgType.dropResponder, id := k } cp sk hcp hsk (by omega)
    simp only [List.map_cons, dropLoop, hbuild, hrs, Option.map_some',
      mapErase_cons_self]
    obtain ⟨s2, pkts, hloop, hsent, hpkts, hresp, hstate, hrespr, hskey, hreg, hws⟩ :=
      ih { s with serverCombinedSequence := cs1,
                  sent := s.sent ++ [pkt],
                  responders := some m }
        cp sk rfl hcp hsk ((by omega : cs1.overflow + m.length < OVERFLOW_MAX))
    refine ⟨s2, pkt :: pkts, ?_, ?_, ?_, hresp, hstate, hrespr, hskey, hreg, hws⟩
    · exact hloop
    · rw [hsent]
      simp
    · simp [hmsg, hdst, hpkts]

/-! ## Reduction lemmas for the peer-handshake handler -/

theorem validateNonce_dest_ok (n : NonceM) (a : Nat) (h : n.destination = a) :
    validateNonce n (some a) none = Except.ok () := by
  simp [validateNonce, validateNonceSrc, h]

theorem onPeer_to_responder (s : SigState) (inb : Inbound) (fresh : Fresh)
    (hdest : inb.nonce.destination = s.address)
    (h2 : 2 ≤ inb.nonce.source) (hff : inb.nonce.source ≤ 0xff) :
    onPeerHandshakeMessage s inb fresh = handleResponderMessage s inb fresh := by
  unfold onPeerHandshakeMessage
  simp only [validateNonce_dest_ok inb.nonce s.address hdest]
  rw [if_neg (by omega), if_neg (by omega), if_pos ⟨h2, hff⟩]

theorem handleResponder_dispatch (s : SigState) (inb : Inbound) (fresh : Fresh)
    (rs : List (Nat × Responder)) (r : Responder)
    (hrole : s.role = Role.initiator)
    (hrs : s.responders = some rs)
    (hr : mapLookup rs inb.nonce.source = some r) :
    handleResponderMessage s inb fresh =
      (match r.state with
       | RespState.new => handleRespNew s inb rs r fresh
       | RespState.tokenReceived => handleRespTokenReceived s inb rs r fresh
       | RespState.keyReceived => handleRespKeyReceived s inb rs r fresh) := by
  unfold handleResponderMessage
  rw [if_neg (by simp [hrole])]
  simp only [hrs, hr]

theorem mapErase_length_le (m : List (Nat × Responder)) (id : Nat) :
    (mapErase m id).length ≤ m.length := by
  induction m with
  | nil => simp [mapErase]
  | cons kv rest ih =>
    obtain ⟨k, v⟩ := kv
    by_cases h : k = id
    · simp [mapErase, h]
    · simp only [mapErase, if_neg h, List.length_cons]
      omega

/-! ## Claim C6: responder election -/

/-- Claim C6: when the initiator holds responder `r` in state
`key-received` and receives from it an `auth` frame that decrypts under the
per-responder session keys and echoes the initiator's own cookie, the
handler elects exactly that responder: one `drop-responder` message
addressed to the server is sent for every other responder still in the map,
the responder map ends up empty, and the engine state becomes `open`. -/
theorem initiator_elects_responder
    (s : SigState) (inb : Inbound) (fresh : Fresh)
    (rs : List (Nat × Responder)) (r : Responder) (rsk : Nat)
    (cp : CookiePair) (sk : Nat)
    (hrole : s.role = Role.initiator)
    (hdest : inb.nonce.destination = s.address)
    (h2 : 2 ≤ inb.nonce.source) (hff : inb.nonce.source ≤ 0xff)
    (hrs : s.responders = some rs)
    (hr : mapLookup rs inb.nonce.source = some r)
    (hstate : r.state = RespState.keyReceived)
    (hrsk : r.sessionKey = some rsk)
    (henc : inb.body.encKey = mkBox r.keyStore rsk)
    (htype : inb.body.message.type = MsgType.auth)
    (hck : inb.body.message.yourCookie = cp.ours)
    (hcp : s.cookiePair = some cp)
    (hsk : s.serverKey = some sk)
    (hovf : s.serverCombinedSequence.overflow + rs.length < OVERFLOW_MAX) :
    ∃ s' pkts,
      onPeerHandshakeMessage s inb fresh = (s', Except.ok ()) ∧
      s'.state = ConnState.opened ∧
      s'.handlerRegistered = false ∧
      s'.responders = some [] ∧
      s'.responder = some r ∧
      s'.sessionKey = some r.keyStore ∧
      s'.sent = s.sent ++ pkts ∧
      pkts.map (fun p => (p.message.type, p.message.id, p.nonce.destination)) =
        ((mapErase rs inb.nonce.source).map Prod.fst).map
          (fun id => (MsgType.dropResponder, id, 0)) := by
  rw [onPeer_to_responder s inb fresh hdest h2 hff,
      handleResponder_dispatch s inb fresh rs r hrole hrs hr]
  rw [hstate]
  unfold handleRespKeyReceived
  have hdec : decryptBox (mkBox r.keyStore rsk) inb.body =
      Except.ok inb.body.message := by
    simp [decryptBox, henc]
  have hdecod : decodeMessage inb.body.message none =
      Except.ok inb.body.message := by
    simp [decodeMessage, htype]
  simp only [hrsk, hdec, hdecod]
  rw [if_neg (by simp [htype])]
  simp only [hcp]
  rw [if_neg (by simp [hck])]
  obtain ⟨s2, pkts, hloop, hsent, hpkts, hresp, hst2, hrespr, hskey, hreg, hws⟩ :=
    dropLoop_spec (mapErase rs inb.nonce.source)
      { s with responder := some r,
               responders := some (mapErase rs inb.nonce.source),
               sessionKey := some r.keyStore }
      cp sk rfl hcp hsk
      ((by have := mapErase_length_le rs inb.nonce.source; omega :
        s.serverCombinedSequence.overflow +
          (mapErase rs inb.nonce.source).length < OVERFLOW_MAX))
  rw [hcp] at hloop
  rw [hloop]
  exact ⟨{ s2 with handlerRegistered := false, state := ConnState.opened },
         pkts, rfl, rfl, rfl, hresp, hrespr, hskey, hsent, hpkts⟩

/-- Claim C6 witness: the concrete election run in which responder `0x02`
is elected and responder `0x03` is dropped. -/
theorem initiator_elects_responder_witness :
    ∃ s' pkts,
      onPeerHandshakeMessage cexSigState cexInboundElect cexFresh =
        (s', Except.ok ()) ∧
      s'.state = ConnState.opened ∧
      s'.handlerRegistered = false ∧
      s'.responders = some [] ∧
      s'.responder = some cexResponder2 ∧
      s'.sessionKey = some cexResponder2.keyStore ∧
      s'.sent = cexSigState.sent ++ pkts ∧
      pkts.map (fun p => (p.message.type, p.message.id, p.nonce.destination)) =
        ((mapErase [(2, cexResponder2), (3, cexResponder3)]
            cexInboundElect.nonce.source).map Prod.fst).map
          (fun id => (MsgType.dropResponder, id, 0)) :=
  initiator_elects_responder cexSigState cexInboundElect cexFresh
    [(2, cexResponder2), (3, cexResponder3)] cexResponder2 31
    { ours := { bytes := [1] }, theirs := { bytes := [2] } } 20
    rfl rfl (by decide) (by decide) rfl rfl rfl rfl rfl rfl rfl rfl rfl
    (by decide)

/-! ## Claim C4: abort behaviour of the peer-handshake handler -/

theorem abortS_spec (s : SigState) (seed : Nat) :
    abortedState (abortS s seed).1 ∧
    (abortS s seed).2 = Except.error HandlerErr.aborted := by
  simp [abortS, resetConnection, abortedState]

theorem onPeer_dest_mismatch (s : SigState) (inb : Inbound) (fresh : Fresh)
    (hdest : inb.nonce.destination ≠ s.address) :
    onPeerHandshakeMessage s inb fresh =
      (s, Except.error (HandlerErr.raw Err.badNonceDestination)) := by
  unfold onPeerHandshakeMessage
  simp [validateNonce, hdest]

theorem onPeer_to_server (s : SigState) (inb : Inbound) (fresh : Fresh)
    (hdest : inb.nonce.destination = s.address)
    (hsrc : inb.nonce.source = 0) :
    onPeerHandshakeMessage s inb fresh = handleServerMessage s inb fresh := by
  unfold onPeerHandshakeMessage
  simp [validateNonce_dest_ok inb.nonce s.address hdest, hsrc]

theorem onPeer_to_initiator (s : SigState) (inb : Inbound) (fresh : Fresh)
    (hdest : inb.nonce.destination = s.address)
    (hsrc : inb.nonce.source = 1) :
    onPeerHandshakeMessage s inb fresh = handleInitiatorMessage s inb fresh := by
  unfold onPeerHandshakeMessage
  simp [validateNonce_dest_ok inb.nonce s.address hdest, hsrc]

theorem handleServer_not_aborted (s : SigState) (inb : Inbound) (fresh : Fresh)
    (s' : SigState)
    (h : handleServerMessage s inb fresh =
      (s', Except.error HandlerErr.aborted)) :
    False := by
  unfold handleServerMessage sendToken at h
  repeat' (first | split at h | simp only [] at h)
  all_goals rw [Prod.mk.injEq] at h
  all_goals obtain ⟨h1, h2⟩ := h
  all_goals first
    | exact Except.noConfusion h2
    | (injection h2 with h3; exact HandlerErr.noConfusion h3)

theorem handleRespNew_aborted (s : SigState) (inb : Inbound)
    (rs : List (Nat × Responder)) (r : Responder) (fresh : Fresh)
    (s' : SigState)
    (h : handleRespNew s inb rs r fresh =
      (s', Except.error HandlerErr.aborted)) :
    abortedState s' := by
  unfold handleRespNew at h
  repeat' (first | split at h | simp only [] at h)
  all_goals try simp only [abortS, resetConnection] at h
  all_goals rw [Prod.mk.injEq] at h
  all_goals obtain ⟨h1, h2⟩ := h
  all_goals first
    | exact Except.noConfusion h2
    | (injection h2 with h3; exact HandlerErr.noConfusion h3)
    | (subst h1; simp [abortedState])

theorem handleRespTokenReceived_aborted (s : SigState) (inb : Inbound)
    (rs : List (Nat × Responder)) (r : Responder) (fresh : Fresh)
    (s' : SigState)
    (h : handleRespTokenReceived s inb rs r fresh =
      (s', Except.error HandlerErr.aborted)) :
    abortedState s' := by
  unfold handleRespTokenReceived at h
  repeat' (first | split at h | simp only [] at h)
  all_goals try simp only [abortS, resetConnection] at h
  all_goals rw [Prod.mk.injEq] at h
  all_goals obtain ⟨h1, h2⟩ := h
  all_goals first
    | exact Except.noConfusion h2
    | (injection h2 with h3; exact HandlerErr.noConfusion h3)
    | (subst h1; simp [abortedState])

theorem handleRespKeyReceived_aborted (s : SigState) (inb : Inbound)
    (rs : List (Nat × Responder)) (r : Responder) (fresh : Fresh)
    (s' : SigState)
    (h : handleRespKeyReceived s inb rs r fresh =
      (s', Except.error HandlerErr.aborted)) :
    abortedState s' := by
  unfold handleRespKeyReceived at h
  repeat' (first | split at h | simp only [] at h)
  all_goals try simp only [abortS, resetConnection] at h
  all_goals rw [Prod.mk.injEq] at h
  all_goals obtain ⟨h1, h2⟩ := h
  all_goals first
    | exact Except.noConfusion h2
    | (injection h2 with h3; exact HandlerErr.noConfusion h3)
    | (subst h1; simp [abortedState])

theorem handleResponder_aborted (s : SigState) (inb : Inbound) (fresh : Fresh)
    (s' : SigState)
    (h : handleResponderMessage s inb fresh =
      (s', Except.error HandlerErr.aborted)) :
    abortedState s' := by
  unfold handleResponderMessage at h
  split at h
  · simp only [abortS, resetConnection] at h
    rw [Prod.mk.injEq] at h
    obtain ⟨h1, _⟩ := h
    subst h1
    simp [abortedState]
  · split at h
    · rw [Prod.mk.injEq] at h
      exact absurd h.2 (by simp)
    · split at h
      · rw [Prod.mk.injEq] at h
        exact absurd h.2 (by simp)
      · split at h
        · exact handleRespNew_aborted _ _ _ _ _ _ h
        · exact handleRespTokenReceived_aborted _ _ _ _ _ _ h
        · exact handleRespKeyReceived_aborted _ _ _ _ _ _ h

theorem initiatorDecrypt_aborted (s : SigState) (inb : Inbound) (fresh : Fresh)
    (s1 : SigState)
    (h : initiatorDecrypt s inb fresh =
      (s1, Except.error HandlerErr.aborted)) :
    abortedState s1 := by
  unfold initiatorDecrypt at h
  repeat' (first | split at h | simp only [] at h)
  all_goals try simp only [abortS, resetConnection] at h
  all_goals rw [Prod.mk.injEq] at h
  all_goals obtain ⟨h1, h2⟩ := h
  all_goals first
    | exact Except.noConfusion h2
    | (injection h2 with h3; exact HandlerErr.noConfusion h3)
    | (subst h1; simp [abortedState])

theorem handleInitiator_aborted (s : SigState) (inb : Inbound) (fresh : Fresh)
    (s' : SigState)
    (h : handleInitiatorMessage s inb fresh =
      (s', Except.error HandlerErr.aborted)) :
    abortedState s' := by
  unfold handleInitiatorMessage at h
  split at h
  · simp only [abortS, resetConnection] at h
    rw [Prod.mk.injEq] at h
    obtain ⟨h1, _⟩ := h
    subst h1
    simp [abortedState]
  · split at h
    · rename_i s1 e heq
      rw [Prod.mk.injEq] at h
      obtain ⟨h1, h2⟩ := h
      simp only [Except.error.injEq] at h2
      subst h2
      subst h1
      exact initiatorDecrypt_aborted _ _ _ _ heq
    · repeat' (first | split at h | simp only [] at h)
      all_goals try simp only [abortS, resetConnection] at h
      all_goals rw [Prod.mk.injEq] at h
      all_goals obtain ⟨h1, h2⟩ := h
      all_goals first
        | exact Except.noConfusion h2
        | (injection h2 with h3; exact HandlerErr.noConfusion h3)
        | (subst h1; simp [abortedState])

theorem onPeer_aborted (s : SigState) (inb : Inbound) (fresh : Fresh)
    (s' : SigState)
    (h : onPeerHandshakeMessage s inb fresh =
      (s', Except.error HandlerErr.aborted)) :
    abortedState s' := by
  unfold onPeerHandshakeMessage at h
  split at h
  · rw [Prod.mk.injEq] at h
    exact absurd h.2 (by simp)
  · split at h
    · exact absurd h (fun hh => handleServer_not_aborted s inb fresh s' hh)
    · split at h
      · exact handleInitiator_aborted s inb fresh s' h
      · split at h
        · exact handleResponder_aborted s inb fresh s' h
        · simp only [abortS, resetConnection] at h
          rw [Prod.mk.injEq] at h
          obtain ⟨h1, _⟩ := h
          subst h1
          simp [abortedState]

theorem onPeer_server_decrypt_raw (s : SigState) (inb : Inbound) (fresh : Fresh)
    (sk : Nat)
    (hdest : inb.nonce.destination = s.address)
    (hsrc : inb.nonce.source = 0)
    (hsk : s.serverKey = some sk)
    (hbad : inb.body.encKey ≠ mkBox s.permanentKey sk) :
    onPeerHandshakeMessage s inb fresh =
      (s, Except.error (HandlerErr.raw Err.decryptionFailed)) := by
  rw [onPeer_to_server s inb fresh hdest hsrc]
  unfold handleServerMessage
  simp [hsk, decryptBox, hbad]

theorem abort_wrong_role_initiator_src (s : SigState) (inb : Inbound)
    (fresh : Fresh)
    (hdest : inb.nonce.destination = s.address)
    (hsrc : inb.nonce.source = 1)
    (hrole : s.role ≠ Role.responder) :
    (onPeerHandshakeMessage s inb fresh).2 = Except.error HandlerErr.aborted := by
  rw [onPeer_to_initiator s inb fresh hdest hsrc]
  unfold handleInitiatorMessage
  rw [if_pos hrole]
  exact (abortS_spec s fresh.resetSeq).2

theorem abort_wrong_role_responder_src (s : SigState) (inb : Inbound)
    (fresh : Fresh)
    (hdest : inb.nonce.destination = s.address)
    (h2 : 2 ≤ inb.nonce.source) (hff : inb.nonce.source ≤ 0xff)
    (hrole : s.role ≠ Role.initiator) :
    (onPeerHandshakeMessage s inb fresh).2 = Except.error HandlerErr.aborted := by
  rw [onPeer_to_responder s inb fresh hdest h2 hff]
  unfold handleResponderMessage
  rw [if_pos hrole]
  exact (abortS_spec s fresh.resetSeq).2

theorem abort_respNew_decrypt (s : SigState) (inb : Inbound) (fresh : Fresh)
    (rs : List (Nat × Responder)) (r : Responder)
    (hdest : inb.nonce.destination = s.address)
    (h2 : 2 ≤ inb.nonce.source) (hff : inb.nonce.source ≤ 0xff)
    (hrole : s.role = Role.initiator)
    (hrs : s.responders = some rs)
    (hr : mapLookup rs inb.nonce.source = some r)
    (hstate : r.state = RespState.new)
    (hbad : inb.body.encKey ≠ EncKey.authTok s.authToken) :
    (onPeerHandshakeMessage s inb fresh).2 = Except.error HandlerErr.aborted := by
  rw [onPeer_to_responder s inb fresh hdest h2 hff,
      handleResponder_dispatch s inb fresh rs r hrole hrs hr, hstate]
  unfold handleRespNew
  simp [decryptBox, hbad, abortS, resetConnection]

theorem abort_respNew_type (s : SigState) (inb : Inbound) (fresh : Fresh)
    (rs : List (Nat × Responder)) (r : Responder)
    (hdest : inb.nonce.destination = s.address)
    (h2 : 2 ≤ inb.nonce.source) (hff : inb.nonce.source ≤ 0xff)
    (hrole : s.role = Role.initiator)
    (hrs : s.responders = some rs)
    (hr : mapLookup rs inb.nonce.source = some r)
    (hstate : r.state = RespState.new)
    (henc : inb.body.encKey = EncKey.authTok s.authToken)
    (hundef : inb.body.message.type ≠ MsgType.undef)
    (htype : inb.body.message.type ≠ MsgType.token) :
    (onPeerHandshakeMessage s inb fresh).2 = Except.error HandlerErr.aborted := by
  rw [onPeer_to_responder s inb fresh hdest h2 hff,
      handleResponder_dispatch s inb fresh rs r hrole hrs hr, hstate]
  unfold handleRespNew
  simp [decryptBox, henc, decodeMessage, hundef, htype, abortS, resetConnection]

theorem abort_respTok_decrypt (s : SigState) (inb : Inbound) (fresh : Fresh)
    (rs : List (Nat × Responder)) (r : Responder) (rpk : Nat)
    (hdest : inb.nonce.destination = s.address)
    (h2 : 2 ≤ inb.nonce.source) (hff : inb.nonce.source ≤ 0xff)
    (hrole : s.role = Role.initiator)
    (hrs : s.responders = some rs)
    (hr : mapLookup rs inb.nonce.source = some r)
    (hstate : r.state = RespState.tokenReceived)
    (hrpk : r.permanentKey = some rpk)
    (hbad : inb.body.encKey ≠ mkBox s.permanentKey rpk) :
    (onPeerHandshakeMessage s inb fresh).2 = Except.error HandlerErr.aborted := by
  rw [onPeer_to_responder s inb fresh hdest h2 hff,
      handleResponder_dispatch s inb fresh rs r hrole hrs hr, hstate]
  unfold handleRespTokenReceived
  simp [hrpk, decryptBox, hbad, abortS, resetConnection]

theorem abort_respTok_type (s : SigState) (inb : Inbound) (fresh : Fresh)
    (rs : List (Nat × Responder)) (r : Responder) (rpk : Nat)
    (hdest : inb.nonce.destination = s.address)
    (h2 : 2 ≤ inb.nonce.source) (hff : inb.nonce.source ≤ 0xff)
    (hrole : s.role = Role.initiator)
    (hrs : s.responders = some rs)
    (hr : mapLookup rs inb.nonce.source = some r)
    (hstate : r.state = RespState.tokenReceived)
    (hrpk : r.permanentKey = some rpk)
    (henc : inb.body.encKey = mkBox s.permanentKey rpk)
    (hundef : inb.body.message.type ≠ MsgType.undef)
    (htype : inb.body.message.type ≠ MsgType.key) :
    (onPeerHandshakeMessage s inb fresh).2 = Except.error HandlerErr.aborted := by
  rw [onPeer_to_responder s inb fresh hdest h2 hff,
      handleResponder_dispatch s inb fresh rs r hrole hrs hr, hstate]
  unfold handleRespTokenReceived
  simp [hrpk, decryptBox, henc, decodeMessage, hundef, htype, abortS,
    resetConnection]

theorem abort_respTok_cookie (s : SigState) (inb : Inbound) (fresh : Fresh)
    (rs : List (Nat × Responder)) (r : Responder) (rpk : Nat) (cp : CookiePair)
    (hdest : inb.nonce.destination = s.address)
    (h2 : 2 ≤ inb.nonce.source) (hff : inb.nonce.source ≤ 0xff)
    (hrole : s.role = Role.initiator)
    (hrs : s.responders = some rs)
    (hr : mapLookup rs inb.nonce.source = some r)
    (hstate : r.state = RespState.tokenReceived)
    (hrpk : r.permanentKey = some rpk)
    (henc : inb.body.encKey = mkBox s.permanentKey rpk)
    (htype : inb.body.message.type = MsgType.key)
    (hcp : s.cookiePair = some cp)
    (hcook : inb.nonce.cookie = cp.ours) :
    (onPeerHandshakeMessage s inb fresh).2 = Except.error HandlerErr.aborted := by
  rw [onPeer_to_responder s inb fresh hdest h2 hff,
      handleResponder_dispatch s inb fresh rs r hrole hrs hr, hstate]
  unfold handleRespTokenReceived
  simp [hrpk, decryptBox, henc, decodeMessage, htype, hcp, hcook, abortS,
    resetConnection]

theorem abort_respKey_decrypt (s : SigState) (inb : Inbound) (fresh : Fresh)
    (rs : List (Nat × Responder)) (r : Responder) (rsk : Nat)
    (hdest : inb.nonce.destination = s.address)
    (h2 : 2 ≤ inb.nonce.source) (hff : inb.nonce.source ≤ 0xff)
    (hrole : s.role = Role.initiator)
    (hrs : s.responders = some rs)
    (hr : mapLookup rs inb.nonce.source = some r)
    (hstate : r.state = RespState.keyReceived)
    (hrsk : r.sessionKey = some rsk)
    (hbad : inb.body.encKey ≠ mkBox r.keyStore rsk) :
    (onPeerHandshakeMessage s inb fresh).2 = Except.error HandlerErr.aborted := by
  rw [onPeer_to_responder s inb fresh hdest h2 hff,
      handleResponder_dispatch s inb fresh rs r hrole hrs hr, hstate]
  unfold handleRespKeyReceived
  simp [hrsk, decryptBox, hbad, abortS, resetConnection]

theorem abort_respKey_type (s : SigState) (inb : Inbound) (fresh : Fresh)
    (rs : List (Nat × Responder)) (r : Responder) (rsk : Nat)
    (hdest : inb.nonce.destination = s.address)
    (h2 : 2 ≤ inb.nonce.source) (hff : inb.nonce.source ≤ 0xff)
    (hrole : s.role = Role.initiator)
    (hrs : s.responders = some rs)
    (hr : mapLookup rs inb.nonce.source = some r)
    (hstate : r.state = RespState.keyReceived)
    (hrsk : r.sessionKey = some rsk)
    (henc : inb.body.encKey = mkBox r.keyStore rsk)
    (hundef : inb.body.message.type ≠ MsgType.undef)
    (htype : inb.body.message.type ≠ MsgType.auth) :
    (onPeerHandshakeMessage s inb fresh).2 = Except.error HandlerErr.aborted := by
  rw [onPeer_to_responder s inb fresh hdest h2 hff,
      handleResponder_dispatch s inb fresh rs r hrole hrs hr, hstate]
  unfold handleRespKeyReceived
  simp [hrsk, decryptBox, henc, decodeMessage, hundef, htype, abortS,
    resetConnection]

theorem abort_respKey_cookie (s : SigState) (inb : Inbound) (fresh : Fresh)
    (rs : List (Nat × Responder)) (r : Responder) (rsk : Nat) (cp : CookiePair)
    (hdest : inb.nonce.destination = s.address)
    (h2 : 2 ≤ inb.nonce.source) (hff : inb.nonce.source ≤ 0xff)
    (hrole : s.role = Role.initiator)
    (hrs : s.responders = some rs)
    (hr : mapLookup rs inb.nonce.source = some r)
    (hstate : r.state = RespState.keyReceived)
    (hrsk : r.sessionKey = some rsk)
    (henc : inb.body.encKey = mkBox r.keyStore rsk)
    (htype : inb.body.message.type = MsgType.auth)
    (hcp : s.cookiePair = some cp)
    (hckbad : inb.body.message.yourCookie ≠ cp.ours) :
    (onPeerHandshakeMessage s inb fresh).2 = Except.error HandlerErr.aborted := by
  rw [onPeer_to_responder s inb fresh hdest h2 hff,
      handleResponder_dispatch s inb fresh rs r hrole hrs hr, hstate]
  unfold handleRespKeyReceived
  simp [hrsk, decryptBox, henc, decodeMessage, htype, hcp, hckbad, abortS,
    resetConnection]

theorem abort_iniTokenSent_decrypt (s : SigState) (inb : Inbound)
    (fresh : Fresh) (ipk : Nat)
    (hdest : inb.nonce.destination = s.address)
    (hsrc : inb.nonce.source = 1)
    (hrole : s.role = Role.responder)
    (hIH : s.initiatorHandshakeState = some IHState.tokenSent)
    (hipk : s.initiatorPermanentKey = some ipk)
    (hbad : inb.body.encKey ≠ mkBox s.permanentKey ipk) :
    (onPeerHandshakeMessage s inb fresh).2 = Except.error HandlerErr.aborted := by
  rw [onPeer_to_initiator s inb fresh hdest hsrc]
  unfold handleInitiatorMessage initiatorDecrypt
  simp [hrole, hIH, hipk, decryptBox, hbad, abortS, resetConnection]

theorem abort_iniTokenSent_type (s : SigState) (inb : Inbound)
    (fresh : Fresh) (ipk : Nat)
    (hdest : inb.nonce.destination = s.address)
    (hsrc : inb.nonce.source = 1)
    (hrole : s.role = Role.responder)
    (hIH : s.initiatorHandshakeState = some IHState.tokenSent)
    (hipk : s.initiatorPermanentKey = some ipk)
    (henc : inb.body.encKey = mkBox s.permanentKey ipk)
    (hundef : inb.body.message.type ≠ MsgType.undef)
    (htype : inb.body.message.type ≠ MsgType.key) :
    (onPeerHandshakeMessage s inb fresh).2 = Except.error HandlerErr.aborted := by
  rw [onPeer_to_initiator s inb fresh hdest hsrc]
  unfold handleInitiatorMessage initiatorDecrypt
  simp [hrole, hIH, hipk, decryptBox, henc, decodeMessage, hundef, htype,
    abortS, resetConnection]

theorem abort_iniKeySent_decrypt (s : SigState) (inb : Inbound)
    (fresh : Fresh) (sk0 isk : Nat)
    (hdest : inb.nonce.destination = s.address)
    (hsrc : inb.nonce.source = 1)
    (hrole : s.role = Role.responder)
    (hIH : s.initiatorHandshakeState = some IHState.keySent)
    (hsk0 : s.sessionKey = some sk0)
    (hisk : s.initiatorSessionKey = some isk)
    (hbad : inb.body.encKey ≠ mkBox sk0 isk) :
    (onPeerHandshakeMessage s inb fresh).2 = Except.error HandlerErr.aborted := by
  rw [onPeer_to_initiator s inb fresh hdest hsrc]
  unfold handleInitiatorMessage initiatorDecrypt
  simp [hrole, hIH, hsk0, hisk, decryptBox, hbad, abortS, resetConnection]

theorem abort_iniKeySent_type (s : SigState) (inb : Inbound)
    (fresh : Fresh) (sk0 isk : Nat)
    (hdest : inb.nonce.destination = s.address)
    (hsrc : inb.nonce.source = 1)
    (hrole : s.role = Role.responder)
    (hIH : s.initiatorHandshakeState = some IHState.keySent)
    (hsk0 : s.sessionKey = some sk0)
    (hisk : s.initiatorSessionKey = some isk)
    (henc : inb.body.encKey = mkBox sk0 isk)
    (hundef : inb.body.message.type ≠ MsgType.undef)
    (htype : inb.body.message.type ≠ MsgType.auth) :
    (onPeerHandshakeMessage s inb fresh).2 = Except.error HandlerErr.aborted := by
  rw [onPeer_to_initiator s inb fresh hdest hsrc]
  unfold handleInitiatorMessage initiatorDecrypt
  simp [hrole, hIH, hsk0, hisk, decryptBox, henc, decodeMessage, hundef,
    htype, abortS, resetConnection]

theorem abort_iniKeySent_cookie (s : SigState) (inb : Inbound)
    (fresh : Fresh) (sk0 isk : Nat) (cp : CookiePair)
    (hdest : inb.nonce.destination = s.address)
    (hsrc : inb.nonce.source = 1)
    (hrole : s.role = Role.responder)
    (hIH : s.initiatorHandshakeState = some IHState.keySent)
    (hsk0 : s.sessionKey = some sk0)
    (hisk : s.initiatorSessionKey = some isk)
    (henc : inb.body.encKey = mkBox sk0 isk)
    (htype : inb.body.message.type = MsgType.auth)
    (hcp : s.cookiePair = some cp)
    (hckbad : inb.body.message.yourCookie ≠ cp.ours) :
    (onPeerHandshakeMessage s inb fresh).2 = Except.error HandlerErr.aborted := by
  rw [onPeer_to_initiator s inb fresh hdest hsrc]
  unfold handleInitiatorMessage initiatorDecrypt
  simp [hrole, hIH, hsk0, hisk, decryptBox, henc, decodeMessage, htype, hcp,
    hckbad, abortS, resetConnection]

theorem abort_iniKeySent_noncecookie (s : SigState) (inb : Inbound)
    (fresh : Fresh) (sk0 isk : Nat) (cp : CookiePair)
    (hdest : inb.nonce.destination = s.address)
    (hsrc : inb.nonce.source = 1)
    (hrole : s.role = Role.responder)
    (hIH : s.initiatorHandshakeState = some IHState.keySent)
    (hsk0 : s.sessionKey = some sk0)
    (hisk : s.initiatorSessionKey = some isk)
    (henc : inb.body.encKey = mkBox sk0 isk)
    (htype : inb.body.message.type = MsgType.auth)
    (hcp : s.cookiePair = some cp)
    (hck : inb.body.message.yourCookie = cp.ours)
    (hcook : inb.nonce.cookie = cp.ours) :
    (onPeerHandshakeMessage s inb fresh).2 = Except.error HandlerErr.aborted := by
  rw [onPeer_to_initiator s inb fresh hdest hsrc]
  unfold handleInitiatorMessage initiatorDecrypt
  simp [hrole, hIH, hsk0, hisk, decryptBox, henc, decodeMessage, htype, hcp,
    hck, hcook, abortS, resetConnection]

/-- Claim C4 counterexample: a message whose nonce destination does not
match the engine address makes the handler throw `bad-nonce-destination`
directly — the state is returned unchanged, so the transport stays open,
the engine state is not reset to `'new'`, and the message handler stays
registered, contradicting the claim that a nonce destination mismatch
triggers the abort path. -/
theorem dest_mismatch_does_not_abort :
    onPeerHandshakeMessage cexSigState cexInboundBadDest cexFresh =
      (cexSigState, Except.error (HandlerErr.raw Err.badNonceDestination)) ∧
    cexSigState.state = ConnState.peerHandshake ∧
    cexSigState.ws = true ∧
    cexSigState.handlerRegistered = true :=
  ⟨rfl, rfl, rfl, rfl⟩

/-- Claim C4 as amended: every decryption failure of an initiator- or
responder-sourced message, message-type mismatch, cookie failure and
wrong-source-for-role failure triggers the abort path, and whenever the
abort path runs the handler is deregistered, the transport closed and the
state reset to `'new'` with the error propagated; but a nonce destination
mismatch, and a decryption failure of a server-sourced message, propagate a
protocol error without the abort path, leaving the state untouched. -/
theorem peer_handshake_abort_paths (s : SigState) (inb : Inbound)
    (fresh : Fresh) :
    (∀ s', onPeerHandshakeMessage s inb fresh =
        (s', Except.error HandlerErr.aborted) → abortedState s') ∧
    (inb.nonce.destination ≠ s.address →
      onPeerHandshakeMessage s inb fresh =
        (s, Except.error (HandlerErr.raw Err.badNonceDestination))) ∧
    (∀ sk, inb.nonce.destination = s.address → inb.nonce.source = 0 →
      s.serverKey = some sk → inb.body.encKey ≠ mkBox s.permanentKey sk →
      onPeerHandshakeMessage s inb fresh =
        (s, Except.error (HandlerErr.raw Err.decryptionFailed))) ∧
    (inb.nonce.destination = s.address → inb.nonce.source = 1 →
      s.role ≠ Role.responder →
      (onPeerHandshakeMessage s inb fresh).2 = Except.error HandlerErr.aborted) ∧
    (inb.nonce.destination = s.address → 2 ≤ inb.nonce.source →
      inb.nonce.source ≤ 0xff → s.role ≠ Role.initiator →
      (onPeerHandshakeMessage s inb fresh).2 = Except.error HandlerErr.aborted) ∧
    (∀ rs r, inb.nonce.destination = s.address → 2 ≤ inb.nonce.source →
      inb.nonce.source ≤ 0xff → s.role = Role.initiator →
      s.responders = some rs → mapLookup rs inb.nonce.source = some r →
      r.state = RespState.new →
      inb.body.encKey ≠ EncKey.authTok s.authToken →
      (onPeerHandshakeMessage s inb fresh).2 = Except.error HandlerErr.aborted) ∧
    (∀ rs r, inb.nonce.destination = s.address → 2 ≤ inb.nonce.source →
      inb.nonce.source ≤ 0xff → s.role = Role.initiator →
      s.responders = some rs → mapLookup rs inb.nonce.source = some r →
      r.state = RespState.new →
      inb.body.encKey = EncKey.authTok s.authToken →
      inb.body.message.type ≠ MsgType.undef →
      inb.body.message.type ≠ MsgType.token →
      (onPeerHandshakeMessage s inb fresh).2 = Except.error HandlerErr.aborted) ∧
    (∀ rs r rpk, inb.nonce.destination = s.address → 2 ≤ inb.nonce.source →
      inb.nonce.source ≤ 0xff → s.role = Role.initiator →
      s.responders = some rs → mapLookup rs inb.nonce.source = some r →
      r.state = RespState.tokenReceived → r.permanentKey = some rpk →
      inb.body.encKey ≠ mkBox s.permanentKey rpk →
      (onPeerHandshakeMessage s inb fresh).2 = Except.error HandlerErr.aborted) ∧
    (∀ rs r rpk, inb.nonce.destination = s.address → 2 ≤ inb.nonce.source →
      inb.nonce.source ≤ 0xff → s.role = Role.initiator →
      s.responders = some rs → mapLookup rs inb.nonce.source = some r →
      r.state = RespState.tokenReceived → r.permanentKey = some rpk →
      inb.body.encKey = mkBox s.permanentKey rpk →
      inb.body.message.type ≠ MsgType.undef →
      inb.body.message.type ≠ MsgType.key →
      (onPeerHandshakeMessage s inb fresh).2 = Except.error HandlerErr.aborted) ∧
    (∀ rs r rpk cp, inb.nonce.destination = s.address → 2 ≤ inb.nonce.source →
      inb.nonce.source ≤ 0xff → s.role = Role.initiator →
      s.responders = some rs → mapLookup rs inb.nonce.source = some r →
      r.state = RespState.tokenReceived → r.permanentKey = some rpk →
      inb.body.encKey = mkBox s.permanentKey rpk →
      inb.body.message.type = MsgType.key → s.cookiePair = some cp →
      inb.nonce.cookie = cp.ours →
      (onPeerHandshakeMessage s inb fresh).2 = Except.error HandlerErr.aborted) ∧
    (∀ rs r rsk, inb.nonce.destination = s.address → 2 ≤ inb.nonce.source →
      inb.nonce.source ≤ 0xff → s.role = Role.initiator →
      s.responders = some rs → mapLookup rs inb.nonce.source = some r →
      r.state = RespState.keyReceived → r.sessionKey = some rsk →
      inb.body.encKey ≠ mkBox r.keyStore rsk →
      (onPeerHandshakeMessage s inb fresh).2 = Except.error HandlerErr.aborted) ∧
    (∀ rs r rsk, inb.nonce.destination = s.address → 2 ≤ inb.nonce.source →
      inb.nonce.source ≤ 0xff → s.role = Role.initiator →
      s.responders = some rs → mapLookup rs inb.nonce.source = some r →
      r.state = RespState.keyReceived → r.sessionKey = some rsk →
      inb.body.encKey = mkBox r.keyStore rsk →
      inb.body.message.type ≠ MsgType.undef →
      inb.body.message.type ≠ MsgType.auth →
      (onPeerHandshakeMessage s inb fresh).2 = Except.error HandlerErr.aborted) ∧
    (∀ rs r rsk cp, inb.nonce.destination = s.address → 2 ≤ inb.nonce.source →
      inb.nonce.source ≤ 0xff → s.role = Role.initiator →
      s.responders = some rs → mapLookup rs inb.nonce.source = some r →
      r.state = RespState.keyReceived → r.sessionKey = some rsk →
      inb.body.encKey = mkBox r.keyStore rsk →
      inb.body.message.type = MsgType.auth → s.cookiePair = some cp →
      inb.body.message.yourCookie ≠ cp.ours →
      (onPeerHandshakeMessage s inb fresh).2 = Except.error HandlerErr.aborted) ∧
    (∀ ipk, inb.nonce.destination = s.address → inb.nonce.source = 1 →
      s.role = Role.responder →
      s.initiatorHandshakeState = some IHState.tokenSent →
      s.initiatorPermanentKey = some ipk →
      inb.body.encKey ≠ mkBox s.permanentKey ipk →
      (onPeerHandshakeMessage s inb fresh).2 = Except.error HandlerErr.aborted) ∧
    (∀ ipk, inb.nonce.destination = s.address → inb.nonce.source = 1 →
      s.role = Role.responder →
      s.initiatorHandshakeState = some IHState.tokenSent →
      s.initiatorPermanentKey = some ipk →
      inb.body.encKey = mkBox s.permanentKey ipk →
      inb.body.message.type ≠ MsgType.undef →
      inb.body.message.type ≠ MsgType.key →
      (onPeerHandshakeMessage s inb fresh).2 = Except.error HandlerErr.aborted) ∧
    (∀ sk0 isk, inb.nonce.destination = s.address → inb.nonce.source = 1 →
      s.role = Role.responder →
      s.initiatorHandshakeState = some IHState.keySent →
      s.sessionKey = some sk0 → s.initiatorSessionKey = some isk →
      inb.body.encKey ≠ mkBox sk0 isk →
      (onPeerHandshakeMessage s inb fresh).2 = Except.error HandlerErr.aborted) ∧
    (∀ sk0 isk, inb.nonce.destination = s.address → inb.nonce.source = 1 →
      s.role = Role.responder →
      s.initiatorHandshakeState = some IHState.keySent →
      s.sessionKey = some sk0 → s.initiatorSessionKey = some isk →
      inb.body.encKey = mkBox sk0 isk →
      inb.body.message.type ≠ MsgType.undef →
      inb.body.message.type ≠ MsgType.auth →
      (onPeerHandshakeMessage s inb fresh).2 = Except.error HandlerErr.aborted) ∧
    (∀ sk0 isk cp, inb.nonce.destination = s.address → inb.nonce.source = 1 →
      s.role = Role.responder →
      s.initiatorHandshakeState = some IHState.keySent →
      s.sessionKey = some sk0 → s.initiatorSessionKey = some isk →
      inb.body.encKey = mkBox sk0 isk →
      inb.body.message.type = MsgType.auth → s.cookiePair = some cp →
      inb.body.message.yourCookie ≠ cp.ours →
      (onPeerHandshakeMessage s inb fresh).2 = Except.error HandlerErr.aborted) ∧
    (∀ sk0 isk cp, inb.nonce.destination = s.address → inb.nonce.source = 1 →
      s.role = Role.responder →
      s.initiatorHandshakeState = some IHState.keySent →
      s.sessionKey = some sk0 → s.initiatorSessionKey = some isk →
      inb.body.encKey = mkBox sk0 isk →
      inb.body.message.type = MsgType.auth → s.cookiePair = some cp →
      inb.body.message.yourCookie = cp.ours → inb.nonce.cookie = cp.ours →
      (onPeerHandshakeMessage s inb fresh).2 = Except.error HandlerErr.aborted) := by
  refine ⟨fun s' h => onPeer_aborted s inb fresh s' h,
    fun h => onPeer_dest_mismatch s inb fresh h,
    fun sk h1 h2 h3 h4 => onPeer_server_decrypt_raw s inb fresh sk h1 h2 h3 h4,
    fun h1 h2 h3 => abort_wrong_role_initiator_src s inb fresh h1 h2 h3,
    fun h1 h2 h3 h4 => abort_wrong_role_responder_src s inb fresh h1 h2 h3 h4,
    fun rs r h1 h2 h3 h4 h5 h6 h7 h8 =>
      abort_respNew_decrypt s inb fresh rs r h1 h2 h3 h4 h5 h6 h7 h8,
    fun rs r h1 h2 h3 h4 h5 h6 h7 h8 h9 h10 =>
      abort_respNew_type s inb fresh rs r h1 h2 h3 h4 h5 h6 h7 h8 h9 h10,
    fun rs r rpk h1 h2 h3 h4 h5 h6 h7 h8 h9 =>
      abort_respTok_decrypt s inb fresh rs r rpk h1 h2 h3 h4 h5 h6 h7 h8 h9,
    fun rs r rpk h1 h2 h3 h4 h5 h6 h7 h8 h9 h10 h11 =>
      abort_respTok_type s inb fresh rs r rpk h1 h2 h3 h4 h5 h6 h7 h8 h9 h10 h11,
    fun rs r rpk cp h1 h2 h3 h4 h5 h6 h7 h8 h9 h10 h11 h12 =>
      abort_respTok_cookie s inb fresh rs r rpk cp h1 h2 h3 h4 h5 h6 h7 h8 h9
        h10 h11 h12,
    fun rs r rsk h1 h2 h3 h4 h5 h6 h7 h8 h9 =>
      abort_respKey_decrypt s inb fresh rs r rsk h1 h2 h3 h4 h5 h6 h7 h8 h9,
    fun rs r rsk h1 h2 h3 h4 h5 h6 h7 h8 h9 h10 h11 =>
      abort_respKey_type s inb fresh rs r rsk h1 h2 h3 h4 h5 h6 h7 h8 h9 h10 h11,
    fun rs r rsk cp h1 h2 h3 h4 h5 h6 h7 h8 h9 h10 h11 h12 =>
      abort_respKey_cookie s inb fresh rs r rsk cp h1 h2 h3 h4 h5 h6 h7 h8 h9
        h10 h11 h12,
    fun ipk h1 h2 h3 h4 h5 h6 =>
      abort_iniTokenSent_decrypt s inb fresh ipk h1 h2 h3 h4 h5 h6,
    fun ipk h1 h2 h3 h4 h5 h6 h7 h8 =>
      abort_iniTokenSent_type s inb fresh ipk h1 h2 h3 h4 h5 h6 h7 h8,
    fun sk0 isk h1 h2 h3 h4 h5 h6 h7 =>
      abort_iniKeySent_decrypt s inb fresh sk0 isk h1 h2 h3 h4 h5 h6 h7,
    fun sk0 isk h1 h2 h3 h4 h5 h6 h7 h8 h9 =>
      abort_iniKeySent_type s inb fresh sk0 isk h1 h2 h3 h4 h5 h6 h7 h8 h9,
    fun sk0 isk cp h1 h2 h3 h4 h5 h6 h7 h8 h9 h10 =>
      abort_iniKeySent_cookie s inb fresh sk0 isk cp h1 h2 h3 h4 h5 h6 h7 h8
        h9 h10,
    fun sk0 isk cp h1 h2 h3 h4 h5 h6 h7 h8 h9 h10 h11 =>
      abort_iniKeySent_noncecookie s inb fresh sk0 isk cp h1 h2 h3 h4 h5 h6 h7
        h8 h9 h10 h11⟩

/-- Claim C4 witness: concrete runs through the amended theorem — a
destination mismatch propagating without reset, a wrong-source-for-role
abort, and a decryption-failure abort. -/
theorem peer_handshake_abort_paths_witness :
    onPeerHandshakeMessage cexSigState cexInboundBadDest cexFresh =
      (cexSigState, Except.error (HandlerErr.raw Err.badNonceDestination)) ∧
    (onPeerHandshakeMessage cexSigState cexInboundFromInitiator cexFresh).2 =
      Except.error HandlerErr.aborted ∧
    (onPeerHandshakeMessage cexSigState cexInboundBadKey cexFresh).2 =
      Except.error HandlerErr.aborted := by
  refine ⟨?_, ?_, ?_⟩
  · exact (peer_handshake_abort_paths cexSigState cexInboundBadDest
      cexFresh).2.1 (by decide)
  · exact (peer_handshake_abort_paths cexSigState cexInboundFromInitiator
      cexFresh).2.2.2.1 rfl rfl (by decide)
  · exact (peer_handshake_abort_paths cexSigState cexInboundBadKey
      cexFresh).2.2.2.2.2.2.2.2.2.2.1
      [(2, cexResponder2), (3, cexResponder3)] cexResponder2 31
      rfl (by decide) (by decide) rfl rfl rfl rfl rfl (by decide)

end SaltyRTC
